import Mathlib

/-!
Verification development for the FlowHub ACP session adapter
(`src-tauri/src/agents/iflow_adapter.rs` and `src-tauri/src/router.rs`).

The Rust code is shallowly embedded: `serde_json::Value` becomes the `Json`
inductive below (numbers are modelled as `Int`; the defensive f64 branch of
`parse_rpc_id` collapses into the single integer branch), WebSocket sends
become entries of an output trace together with a success oracle
`Nat → Bool` indexed by the number of send attempts made so far, file I/O
becomes an explicit `Fs` record of `Except`-valued operations, and the
`message_listener_task` select loop becomes a step function on an explicit
`ListenerState` record processing one command or one parsed inbound JSON
line at a time.
-/

namespace FlowHub

/-- Model of `serde_json::Value`.  Objects are association lists with the
first binding of a key authoritative (parsed objects have unique keys). -/
inductive Json where
  | null : Json
  | bool (b : Bool) : Json
  | num (n : Int) : Json
  | str (s : String) : Json
  | arr (items : List Json) : Json
  | obj (fields : List (String × Json)) : Json

/-- Key lookup in an object's field list, first match wins
(`serde_json::Map::get`). -/
def lookupField : List (String × Json) → String → Option Json
  | [], _ => none
  | (k, v) :: rest, key => if k = key then some v else lookupField rest key

/-- `Value::get(key)`: `Some` only on objects that contain the key. -/
def Json.getField : Json → String → Option Json
  | .obj fields, key => lookupField fields key
  | _, _ => none

/-- `Value::as_str`. -/
def Json.asStr : Json → Option String
  | .str s => some s
  | _ => none

/-- `Value::as_array`. -/
def Json.asArr : Json → Option (List Json)
  | .arr items => some items
  | _ => none

/-- Lower-case hex digit, used by the JSON string escaper. -/
def hexDigit (n : Nat) : Char :=
  if n < 10 then Char.ofNat (48 + n) else Char.ofNat (87 + n)

/-- serde_json string escaping: quote, backslash and control characters. -/
def escapeChar (c : Char) : String :=
  if c = '"' then "\\\""
  else if c = '\\' then "\\\\"
  else if c = '\n' then "\\n"
  else if c = '\r' then "\\r"
  else if c = '\t' then "\\t"
  else if c = Char.ofNat 8 then "\\b"
  else if c = Char.ofNat 12 then "\\f"
  else if c.toNat < 32 then
    "\\u00" ++ String.singleton (hexDigit (c.toNat / 16)) ++
      String.singleton (hexDigit (c.toNat % 16))
  else String.singleton c

/-- Rendered JSON string literal. -/
def renderString (s : String) : String :=
  "\"" ++ String.join (s.toList.map escapeChar) ++ "\""

mutual

/-- Compact serialization, the `Display`/`to_string()` of `serde_json::Value`. -/
def Json.render : Json → String
  | .null => "null"
  | .bool b => if b then "true" else "false"
  | .num n => toString n
  | .str s => renderString s
  | .arr items => "[" ++ renderList items ++ "]"
  | .obj fields => "\x7b" ++ renderFields fields ++ "\x7d"

/-- Comma-separated rendering of array elements. -/
def renderList : List Json → String
  | [] => ""
  | [v] => Json.render v
  | v :: rest => Json.render v ++ "," ++ renderList rest

/-- Comma-separated rendering of object fields. -/
def renderFields : List (String × Json) → String
  | [] => ""
  | [(k, v)] => renderString k ++ ":" ++ Json.render v
  | (k, v) :: rest =>
      renderString k ++ ":" ++ Json.render v ++ "," ++ renderFields rest

end

/-- `parse_rpc_id` (iflow_adapter.rs:96).  The source reads `id` as i64, u64
or (defensively) f64; with model numbers being `Int` these collapse into one
branch. -/
def parse_rpc_id (message : Json) : Option Int :=
  match message.getField "id" with
  | some (.num n) => some n
  | _ => none

/-- A file operation performed by the server-callback handler; recorded so
that "no file read was attempted" is directly observable. -/
inductive FsOp where
  | readOp (path : String) : FsOp
  | writeOp (path : String) (content : String) : FsOp

/-- The file system as seen by `handle_server_request`
(`tokio::fs::read_to_string` / `tokio::fs::write`): fallible operations whose
error carries the I/O failure text used in the JSON-RPC error message. -/
structure Fs where
  readFile : String → Except String String
  writeFile : String → String → Except String Unit

/-- The JSON-RPC reply sent back to the agent: `send_rpc_result` or
`send_rpc_error` with a code and message. -/
inductive Reply where
  | result (v : Json) : Reply
  | rpcError (code : Int) (message : String) : Reply

/-- `handle_server_request` (iflow_adapter.rs:110): answers an
agent-initiated JSON-RPC request.  Returns the reply together with the list
of file operations performed.  The reply send itself (which the source only
logs on failure) is modelled by the caller. -/
def handle_server_request (fs : Fs) (method : String) (params0 : Option Json) :
    Reply × List FsOp :=
  let params := params0.getD Json.null
  if method = "session/request_permission" then
    (.result (Json.obj [("outcome", Json.obj
      [("outcome", .str "selected"), ("optionId", .str "allow_once")])]), [])
  else if method = "fs/read_text_file" then
    match params.getField "path" >>= Json.asStr with
    | none => (.rpcError (-32602) "Missing path", [])
    | some path =>
      let sessionId := ((params.getField "sessionId" >>= Json.asStr).getD "")
      match fs.readFile path with
      | .ok content =>
          (.result (Json.obj [("content", .str content), ("path", .str path),
            ("sessionId", .str sessionId)]), [.readOp path])
      | .error e =>
          (.rpcError (-32603) ("Failed to read file: " ++ e), [.readOp path])
  else if method = "fs/write_text_file" then
    match params.getField "path" >>= Json.asStr with
    | none => (.rpcError (-32602) "Missing path", [])
    | some path =>
      match params.getField "content" >>= Json.asStr with
      | none => (.rpcError (-32602) "Missing content", [])
      | some content =>
        match fs.writeFile path content with
        | .ok _ => (.result Json.null, [.writeOp path content])
        | .error e =>
            (.rpcError (-32603) ("Failed to write file: " ++ e),
             [.writeOp path content])
  else if method = "_iflow/user/questions" then
    (.result (Json.obj [("answers", Json.obj [])]), [])
  else if method = "_iflow/plan/exit" then
    (.result (Json.obj [("approved", Json.bool true)]), [])
  else
    (.rpcError (-32601) "Method not found", [])

/-- `ToolCall` (models.rs:36). -/
structure ToolCall where
  id : String
  name : String
  status : String
  arguments : Option Json
  output : Option String

/-- `text_from_content` (router.rs:6). -/
def text_from_content (content : Json) : Option String :=
  match content.getField "type" >>= Json.asStr with
  | none => none
  | some contentType =>
    if contentType = "text" then
      content.getField "text" >>= Json.asStr
    else
      some content.render

/-- One iteration of the accumulation loop of `text_from_tool_contents`
(router.rs:18): a `content` item contributes the text of its content, a
`diff` item with a string path contributes `"[diff] " ++ path`, everything
else contributes nothing. -/
def toolContentText (item : Json) : Option String :=
  match item.getField "type" >>= Json.asStr with
  | some "content" => item.getField "content" >>= text_from_content
  | some "diff" =>
      (item.getField "path" >>= Json.asStr).map (fun p => "[diff] " ++ p)
  | _ => none

/-- `text_from_tool_contents` (router.rs:14): the for-loop with an optional
push per item is a `filterMap`; the collected texts are joined with
newlines, `None` when nothing was collected. -/
def text_from_tool_contents (contents : Json) : Option String :=
  match contents.asArr with
  | none => none
  | some items =>
    let texts := items.filterMap toolContentText
    if texts.isEmpty then none else some (String.intercalate "\n" texts)

/-- `stop_reason_to_message` (router.rs:43). -/
def stop_reason_to_message (reason : String) : String :=
  if reason = "end_turn" then "✅ 任务完成"
  else if reason = "max_tokens" then "⚠️ 达到最大令牌限制"
  else if reason = "cancelled" then "🚫 任务已取消"
  else if reason = "refusal" then "⛔ 模型拒绝回答"
  else "✅ 任务结束"

/-- An application-facing event emitted by the router
(`handle_session_update`). -/
inductive RouterEvent where
  | streamMessage (content : String) (msgType : String) : RouterEvent
  | toolCall (tc : ToolCall) : RouterEvent
  | unhandled (sessionUpdate : String) : RouterEvent

/-- One iteration of the plan-entry formatting loop of
`handle_session_update` (router.rs:142): an entry deserializable into
`PlanEntry` (string `content` and `status` fields) becomes one formatted
line. -/
def planEntryLine (entry : Json) : Option String :=
  match entry.getField "content" >>= Json.asStr with
  | none => none
  | some content =>
    match entry.getField "status" >>= Json.asStr with
    | none => none
    | some status => some ("[" ++ status ++ "] " ++ content)

/-- `handle_session_update` (router.rs:75): translates one `session/update`
payload into emitted events. -/
def handle_session_update (update : Json) : List RouterEvent :=
  match update.getField "sessionUpdate" >>= Json.asStr with
  | none => []
  | some sessionUpdate =>
    if sessionUpdate = "agent_message_chunk" then
      match update.getField "content" >>= text_from_content with
      | some content => [.streamMessage content "content"]
      | none => []
    else if sessionUpdate = "agent_thought_chunk" then
      match update.getField "content" >>= text_from_content with
      | some content => [.streamMessage ("💭 " ++ content) "thought"]
      | none => []
    else if sessionUpdate = "tool_call" ∨ sessionUpdate = "tool_call_update" then
      let tc : ToolCall :=
        { id := ((update.getField "toolCallId" >>= Json.asStr).getD "")
          name := (((update.getField "toolName" >>= Json.asStr).orElse
            (fun _ => update.getField "title" >>= Json.asStr)).getD "")
          status := ((update.getField "status" >>= Json.asStr).getD "pending")
          arguments := update.getField "args"
          output := update.getField "content" >>= text_from_tool_contents }
      [.toolCall tc]
    else if sessionUpdate = "plan" then
      let entries :=
        match update.getField "entries" >>= Json.asArr with
        | some raw => raw.filterMap planEntryLine
        | none => []
      if entries.isEmpty then []
      else [.streamMessage ("📋 执行计划:\n" ++ String.intercalate "\n" entries) "plan"]
    else if sessionUpdate = "user_message_chunk" then []
    else [.unhandled sessionUpdate]

/-- `build_initialize_params` (iflow_adapter.rs:211). -/
def build_initialize_params : Json :=
  Json.obj [("protocolVersion", .num 1),
    ("clientCapabilities", Json.obj [("fs", Json.obj
      [("readTextFile", .bool true), ("writeTextFile", .bool true)])]),
    ("mcpServers", .arr [])]

/-- `build_session_new_params` (iflow_adapter.rs:224). -/
def build_session_new_params (workspacePath : String) : Json :=
  Json.obj [("cwd", .str workspacePath), ("mcpServers", .arr []),
    ("settings", Json.obj [("permission_mode", .str "yolo")])]

/-- `build_session_load_params` (iflow_adapter.rs:234). -/
def build_session_load_params (workspacePath sessionId : String) : Json :=
  Json.obj [("cwd", .str workspacePath), ("sessionId", .str sessionId),
    ("mcpServers", .arr []),
    ("settings", Json.obj [("permission_mode", .str "yolo")])]

/-- `build_prompt_params` (iflow_adapter.rs:245). -/
def build_prompt_params (sessionId prompt : String) : Json :=
  Json.obj [("sessionId", .str sessionId),
    ("prompt", .arr [Json.obj [("type", .str "text"), ("text", .str prompt)]])]

/-- `ListenerCommand` (models.rs:52).  The one-shot reply channel of
`SetModel` is modelled by the `resolveModel*` outputs below. -/
inductive ListenerCommand where
  | userPrompt (prompt : String) : ListenerCommand
  | cancelPrompt : ListenerCommand
  | setModel (model : String) : ListenerCommand

/-- One observable effect of the listener task.  `sendReq` is a successful
`conn.send_message` of `build_rpc_request id method params`; `sendFailed`
records a failed send attempt of the named method.  `emitRegistries`
abstracts `emit_command_registry_payload` + `emit_model_registry_payload`
applied to a result payload, and `commandRegistryFromUpdate` abstracts
`emit_command_registry_from_update`; no claim depends on registry
normalization, so the outputs carry the raw payload. -/
inductive Output where
  | sendReq (id : Int) (method : String) (params : Json) : Output
  | sendFailed (method : String) : Output
  | emitAgentError (error : String) : Output
  | emitStream (content : String) (msgType : String) : Output
  | emitTaskFinish (reason : String) : Output
  | emitModelRegistry (models : List Json) (currentModel : String) : Output
  | emitRegistries (result : Json) : Output
  | commandRegistryFromUpdate (update : Json) : Output
  | router (e : RouterEvent) : Output
  | serverReply (id : Int) (reply : Reply) : Output
  | serverReplyFailed (id : Int) : Output
  | fsOp (op : FsOp) : Output
  | log (message : String) : Output
  | resolveModelOk (value : String) : Output
  | resolveModelErr (error : String) : Output

/-- `emit_task_finish` (router.rs:53): a `task-finish` event, preceded by a
human-readable status line for every reason other than `end_turn`. -/
def emit_task_finish (reason : String) : List Output :=
  (if reason = "end_turn" then []
   else [Output.emitStream (stop_reason_to_message reason) "system"])
  ++ [Output.emitTaskFinish reason]

/-- The per-connection mutable state of `message_listener_task`
(iflow_adapter.rs:494-503) together with the outer-loop `cached_session_id`
and `queued_prompts` (lines 477-480), which survive reconnects.  `sends`
counts socket send attempts (the index into the send-success oracle), and
`closed` records that this connection attempt has ended: a `break` out of
the select loop (command-branch send failures, transport close or error)
or task exit — not the per-frame line-loop breaks. -/
structure ListenerState where
  rpcCounter : Int
  sends : Nat
  initId : Option Int
  loadId : Option Int
  newId : Option Int
  sessionId : Option String
  cachedSessionId : Option String
  queuedPrompts : List String
  pendingPromptIds : List Int
  pendingSetModel : List (Int × String)
  closed : Bool

/-- `next_rpc_id` (iflow_adapter.rs:205): return the counter, then
increment it. -/
def next_rpc_id (s : ListenerState) : Int × ListenerState :=
  (s.rpcCounter, { s with rpcCounter := s.rpcCounter + 1 })

/-- Environment of one connection: the workspace path and the send-success
oracle (`conn.send_message` succeeds on attempt `n` iff `oracle n`). -/
structure Ctx where
  workspacePath : String
  oracle : Nat → Bool

/-- Connection-start (iflow_adapter.rs:490-512): fresh per-connection state
with the counter at 1, session id seeded from the cached id, then the
`initialize` request is sent; a send failure ends the task (`break`). -/
def connectionStart (ctx : Ctx) (cached : Option String) (queue : List String) :
    ListenerState × List Output :=
  let s : ListenerState :=
    { rpcCounter := 1, sends := 0, initId := none, loadId := none, newId := none
      sessionId := cached, cachedSessionId := cached, queuedPrompts := queue
      pendingPromptIds := [], pendingSetModel := [], closed := false }
  let (initId, s1) := next_rpc_id s
  if ctx.oracle s1.sends then
    ({ s1 with sends := s1.sends + 1, initId := some initId },
     [Output.sendReq initId "initialize" build_initialize_params])
  else
    ({ s1 with sends := s1.sends + 1, closed := true },
     [Output.sendFailed "initialize"])

/-- The prompt-queue drain loop (iflow_adapter.rs:716-729 and 773-786):
pop prompts in FIFO order, allocate an id, send `session/prompt`; on a send
failure push the prompt back to the front and stop.  Called with the queue
popped out of the state. -/
def drainLoop (ctx : Ctx) (sid : String) :
    List String → ListenerState → ListenerState × List Output
  | [], s => (s, [])
  | prompt :: rest, s =>
    let (promptId, s1) := next_rpc_id s
    if ctx.oracle s1.sends then
      let s2 := { s1 with sends := s1.sends + 1
                          pendingPromptIds := promptId :: s1.pendingPromptIds }
      let (s3, outs) := drainLoop ctx sid rest s2
      (s3, Output.sendReq promptId "session/prompt"
        (build_prompt_params sid prompt) :: outs)
    else
      ({ s1 with sends := s1.sends + 1, queuedPrompts := prompt :: rest },
       [Output.sendFailed "session/prompt"])

/-- The command branch of the select loop (iflow_adapter.rs:516-583). -/
def handleCommand (ctx : Ctx) (s : ListenerState) :
    ListenerCommand → ListenerState × List Output
  | .userPrompt prompt =>
    match s.sessionId with
    | some sid =>
      let (promptId, s1) := next_rpc_id s
      if ctx.oracle s1.sends then
        ({ s1 with sends := s1.sends + 1
                   pendingPromptIds := promptId :: s1.pendingPromptIds },
         [Output.sendReq promptId "session/prompt"
           (build_prompt_params sid prompt)])
      else
        ({ s1 with sends := s1.sends + 1
                   queuedPrompts := prompt :: s1.queuedPrompts, closed := true },
         [Output.sendFailed "session/prompt"])
    | none => ({ s with queuedPrompts := s.queuedPrompts ++ [prompt] }, [])
  | .cancelPrompt =>
    match s.sessionId with
    | some sid =>
      let (cancelId, s1) := next_rpc_id s
      if ctx.oracle s1.sends then
        ({ s1 with sends := s1.sends + 1 },
         [Output.sendReq cancelId "session/cancel"
           (Json.obj [("sessionId", .str sid)])])
      else ({ s1 with sends := s1.sends + 1 },
        [Output.sendFailed "session/cancel"])
    | none => (s, [])
  | .setModel model =>
    match s.sessionId with
    | some sid =>
      let (switchId, s1) := next_rpc_id s
      if ctx.oracle s1.sends then
        ({ s1 with sends := s1.sends + 1
                   pendingSetModel := (switchId, model) :: s1.pendingSetModel },
         [Output.sendReq switchId "session/set_model"
           (Json.obj [("sessionId", .str sid), ("modelId", .str model)])])
      else
        ({ s1 with sends := s1.sends + 1, closed := true },
         [Output.sendFailed "session/set_model",
          Output.resolveModelErr "Failed to send session/set_model"])
    | none => (s, [Output.resolveModelErr "Session not ready"])

/-- Result of processing one line of a frame: the successor state, the
emitted outputs, and whether the for-loop over the frame's remaining lines
was exited (`break`).  Those breaks end only the line loop
(iflow_adapter.rs:593): the select loop — and with it the connection
attempt — keeps running afterwards. -/
structure LineStep where
  state : ListenerState
  outs : List Output
  brk : Bool

/-- The response-dispatch chain of the select loop
(iflow_adapter.rs:630-843): an inbound JSON object with an id and no
method is matched against the pending initialize id, the pending
session/load id, the pending session/new id, the pending prompt-id set and
the pending set-model map, in that order.  The `break` statements of this
chain (initialize error at line 646, handshake send failures at 660/673,
fallback send failure at 696, session/new error at 746, missing sessionId
at 764) exit only the for-loop over the frame's lines, recorded as
`brk := true`; they do not end the connection attempt. -/
def handleResponse (ctx : Ctx) (s : ListenerState) (msg : Json) : LineStep :=
  match parse_rpc_id msg with
  | none => ⟨s, [Output.log "Unknown message"], false⟩
  | some responseId =>
    if s.initId = some responseId then
      let s0 := { s with initId := none }
      match msg.getField "error" with
      | some err =>
        ⟨s0, [Output.emitAgentError ("ACP initialize failed: " ++ err.render)],
         true⟩
      | none =>
        match s0.sessionId with
        | some existingSessionId =>
          let (loadId, s1) := next_rpc_id s0
          let s2 := { s1 with loadId := some loadId }
          if ctx.oracle s2.sends then
            ⟨{ s2 with sends := s2.sends + 1 },
             [Output.sendReq loadId "session/load"
               (build_session_load_params ctx.workspacePath existingSessionId)],
             false⟩
          else ⟨{ s2 with sends := s2.sends + 1 },
            [Output.sendFailed "session/load"], true⟩
        | none =>
          let (newId, s1) := next_rpc_id s0
          let s2 := { s1 with newId := some newId }
          if ctx.oracle s2.sends then
            ⟨{ s2 with sends := s2.sends + 1 },
             [Output.sendReq newId "session/new"
               (build_session_new_params ctx.workspacePath)],
             false⟩
          else ⟨{ s2 with sends := s2.sends + 1 },
            [Output.sendFailed "session/new"], true⟩
    else if s.loadId = some responseId then
      let s0 := { s with loadId := none }
      match msg.getField "error" with
      | some _err =>
        let (newId, s1) := next_rpc_id s0
        let s2 := { s1 with newId := some newId }
        if ctx.oracle s2.sends then
          ⟨{ s2 with sends := s2.sends + 1 },
           [Output.sendReq newId "session/new"
             (build_session_new_params ctx.workspacePath)],
           false⟩
        else ⟨{ s2 with sends := s2.sends + 1 },
          [Output.sendFailed "session/new"], true⟩
      | none =>
        let regOuts :=
          match msg.getField "result" with
          | some result => [Output.emitRegistries result]
          | none => []
        let restored := Output.emitStream "✅ iFlow ACP 会话已恢复" "system"
        match s0.sessionId with
        | some sid =>
          let (s1, drainOuts) :=
            drainLoop ctx sid s0.queuedPrompts { s0 with queuedPrompts := [] }
          ⟨s1, regOuts ++ [restored] ++ drainOuts, false⟩
        | none => ⟨s0, regOuts ++ [restored], false⟩
    else if s.newId = some responseId then
      let s0 := { s with newId := none }
      match msg.getField "error" with
      | some err =>
        ⟨s0, [Output.emitAgentError ("session/new failed: " ++ err.render)],
         true⟩
      | none =>
        let newSid := (msg.getField "result").bind
          (fun r => r.getField "sessionId") >>= Json.asStr
        let s1 := { s0 with sessionId := newSid, cachedSessionId := newSid }
        match newSid with
        | none =>
          ⟨s1,
           [Output.emitAgentError "session/new succeeded but no sessionId returned"],
           true⟩
        | some sid =>
          let regOuts :=
            match msg.getField "result" with
            | some result => [Output.emitRegistries result]
            | none => []
          let (s2, drainOuts) :=
            drainLoop ctx sid s1.queuedPrompts { s1 with queuedPrompts := [] }
          ⟨s2, regOuts ++ drainOuts, false⟩
    else if responseId ∈ s.pendingPromptIds then
      let s0 := { s with pendingPromptIds := s.pendingPromptIds.erase responseId }
      match msg.getField "error" with
      | some err =>
        ⟨s0, [Output.emitAgentError ("session/prompt failed: " ++ err.render)],
         false⟩
      | none =>
        let reason := (((msg.getField "result").bind
          (fun r => r.getField "stopReason") >>= Json.asStr)).getD "completed"
        ⟨s0, emit_task_finish reason, false⟩
    else
      match s.pendingSetModel.lookup responseId with
      | some requestedModel =>
        let s0 := { s with pendingSetModel :=
          s.pendingSetModel.filter (fun p => p.1 != responseId) }
        match msg.getField "error" with
        | some err =>
          ⟨s0, [Output.resolveModelErr
            ("session/set_model failed: " ++ err.render)], false⟩
        | none =>
          let currentModel := ((((msg.getField "result").bind
            (fun r => r.getField "currentModelId") >>= Json.asStr).map
              String.trim).filter (fun v => v != "")).getD requestedModel
          ⟨s0, [Output.emitModelRegistry [] currentModel,
            Output.resolveModelOk currentModel], false⟩
      | none => ⟨s, [Output.log "Unknown message"], false⟩

/-- Processing of one trimmed, parsed, non-comment inbound JSON line
(iflow_adapter.rs:609-843): method-bearing objects are session updates,
server requests (when an id is present) or ignored notifications — all of
which continue with the next line; method-less objects go through the
response-dispatch chain.  A server request's reply is itself a socket send
(send failure is only logged, iflow_adapter.rs:200). -/
def handleLineFull (ctx : Ctx) (fs : Fs) (s : ListenerState) (msg : Json) :
    LineStep :=
  match msg.getField "method" >>= Json.asStr with
  | some method =>
    let params := msg.getField "params"
    if method = "session/update" then
      match params.bind (fun p => p.getField "update") with
      | some update =>
        ⟨s, ((handle_session_update update).map Output.router)
          ++ [Output.commandRegistryFromUpdate update], false⟩
      | none => ⟨s, [], false⟩
    else
      match parse_rpc_id msg with
      | some requestId =>
        let (reply, ops) := handle_server_request fs method params
        let replyOut :=
          if ctx.oracle s.sends then Output.serverReply requestId reply
          else Output.serverReplyFailed requestId
        ⟨{ s with sends := s.sends + 1 }, (ops.map Output.fsOp) ++ [replyOut],
         false⟩
      | none => ⟨s, [Output.log ("Notification method ignored: " ++ method)],
         false⟩
  | none => handleResponse ctx s msg

/-- State change and outputs of one line, without the line-loop break
flag. -/
def handleLine (ctx : Ctx) (fs : Fs) (s : ListenerState) (msg : Json) :
    ListenerState × List Output :=
  ((handleLineFull ctx fs s msg).state, (handleLineFull ctx fs s msg).outs)

/-- The for-loop over the lines of one received frame
(iflow_adapter.rs:593-843): lines are processed in order; a line whose
processing executes `break` stops the loop, dropping the frame's remaining
lines, and the select loop continues. -/
def handleFrame (ctx : Ctx) (fs : Fs) :
    ListenerState → List Json → ListenerState × List Output
  | s, [] => (s, [])
  | s, msg :: rest =>
    let r := handleLineFull ctx fs s msg
    if r.brk then (r.state, r.outs)
    else
      let (s2, outs2) := handleFrame ctx fs r.state rest
      (s2, r.outs ++ outs2)

/-- One input to the select loop: an application command from the channel,
or one received frame (its parsed JSON lines). -/
inductive ListenerEvent where
  | cmd (c : ListenerCommand) : ListenerEvent
  | frame (lines : List Json) : ListenerEvent

/-- One iteration of the select loop. -/
def step (ctx : Ctx) (fs : Fs) (s : ListenerState) :
    ListenerEvent → ListenerState × List Output
  | .cmd c => handleCommand ctx s c
  | .frame lines => handleFrame ctx fs s lines

/-- Run of the select loop over a sequence of inputs; once the connection
attempt has ended (`closed`: a command-branch send failure broke the
select loop, or the task ended), no further input is processed on it. -/
def run (ctx : Ctx) (fs : Fs) :
    ListenerState → List ListenerEvent → ListenerState × List Output
  | s, [] => (s, [])
  | s, e :: rest =>
    if s.closed then (s, [])
    else
      let (s1, outs1) := step ctx fs s e
      let (s2, outs2) := run ctx fs s1 rest
      (s2, outs1 ++ outs2)

/-- One observable event of the outer reconnect loop
(iflow_adapter.rs:482-874). -/
inductive RetryEvent where
  | connectAttempt : RetryEvent
  | connectOk : RetryEvent
  | sleepSecs (n : Nat) : RetryEvent
  | fatalError : RetryEvent
deriving DecidableEq

/-- The outer reconnect loop of `message_listener_task`
(iflow_adapter.rs:475-874), abstracted over a script of connect outcomes
(`true` = `AcpConnection::connect` succeeds).  A success resets the retry
counter to 0 and, after the inner session loop ends, the `while` retries;
a failure increments the counter, and on reaching `max_retries = 5` a fatal
agent-error is emitted and the loop exits, otherwise it sleeps 2 seconds.
The inner session (and its possible task exit) is abstracted: the script
simply ends when observation stops. -/
def retry_loop : Nat → List Bool → List RetryEvent
  | _, [] => []
  | retryCount, outcome :: rest =>
    if retryCount < 5 then
      RetryEvent.connectAttempt ::
        (if outcome then RetryEvent.connectOk :: retry_loop 0 rest
         else if retryCount + 1 ≥ 5 then [RetryEvent.fatalError]
         else RetryEvent.sleepSecs 2 :: retry_loop (retryCount + 1) rest)
    else []

/-! ## Observations over traces -/

/-- Ids of the requests actually sent, in order of sending. -/
def sentIds : List Output → List Int
  | [] => []
  | Output.sendReq i _ _ :: rest => i :: sentIds rest
  | _ :: rest => sentIds rest

/-- The prompt text carried by `build_prompt_params`. -/
def extractPromptText (params : Json) : Option String :=
  match params.getField "prompt" with
  | some (.arr [item]) => item.getField "text" >>= Json.asStr
  | _ => none

/-- Texts of the `session/prompt` requests actually sent, in order. -/
def sentPromptTexts : List Output → List String
  | [] => []
  | Output.sendReq _ m params :: rest =>
    (if m = "session/prompt" then (extractPromptText params).toList else [])
      ++ sentPromptTexts rest
  | _ :: rest => sentPromptTexts rest

/-- Number of `session/new` requests actually sent in a trace. -/
def newSendCount : List Output → Nat
  | [] => 0
  | Output.sendReq _ m _ :: rest =>
    (if m = "session/new" then 1 else 0) + newSendCount rest
  | _ :: rest => newSendCount rest

/-- All ids currently held by a pending-request structure: the pending
initialize/load/new ids, the pending prompt-id set and the pending
set-model map. -/
def pendingIds (s : ListenerState) : List Int :=
  s.initId.toList ++ s.loadId.toList ++ s.newId.toList ++
    s.pendingPromptIds ++ s.pendingSetModel.map Prod.fst

/-- Multiplicity of an id among the pending structures. -/
def pendCount (s : ListenerState) (i : Int) : Nat :=
  (pendingIds s).count i

/-- The correlator invariant: every id is pending in at most one structure
at most once, and every pending id was drawn from the counter (is below
its current value). -/
def Good (s : ListenerState) : Prop :=
  (∀ i : Int, pendCount s i ≤ 1) ∧
    (∀ i : Int, 0 < pendCount s i → i < s.rpcCounter)

/-- Number of handshake responses still able to cause a `session/new` send
in this connection attempt (pending initialize or pending load). -/
def loadTokens (s : ListenerState) : Nat :=
  (if s.initId.isSome then 1 else 0) + (if s.loadId.isSome then 1 else 0)

/-- How many prompts the drain loop sends before its first send failure:
the length of the longest prefix of the queue on which the oracle grants
consecutive send attempts starting at index `start`. -/
def drainSuccessCount (oracle : Nat → Bool) : Nat → List String → Nat
  | _, [] => 0
  | start, _ :: rest =>
    if oracle start then drainSuccessCount oracle (start + 1) rest + 1 else 0

/-! ## String-join splitting lemmas -/

/-- Separator-prefixed concatenation: the tail contribution of
`String.intercalate`. -/
def sepConcat (sep : String) : List String → String
  | [] => ""
  | a :: rest => sep ++ a ++ sepConcat sep rest

theorem intercalate_go_eq (sep acc : String) (l : List String) :
    String.intercalate.go acc sep l = acc ++ sepConcat sep l := by
  induction l generalizing acc with
  | nil => simp [String.intercalate.go, sepConcat]
  | cons a rest ih =>
      simp only [String.intercalate.go, sepConcat, ih, String.append_assoc]

theorem intercalate_eq_sepConcat (sep : String) (a : String) (l : List String) :
    String.intercalate sep (a :: l) = a ++ sepConcat sep l := by
  simp [String.intercalate, intercalate_go_eq]

theorem sepConcat_split (sep x : String) (l : List String) (hx : x ∈ l) :
    ∃ pre post, sepConcat sep l = pre ++ x ++ post := by
  induction l with
  | nil => cases hx
  | cons a rest ih =>
      rcases List.mem_cons.mp hx with h | h
      · exact ⟨sep, sepConcat sep rest, by simp [sepConcat, h, String.append_assoc]⟩
      · rcases ih h with ⟨pre, post, hpre⟩
        exact ⟨sep ++ a ++ pre, post, by
          simp [sepConcat, hpre, String.append_assoc]⟩

/-- Any member of a list is a literal substring (in the explicit
`pre ++ x ++ post` sense) of the newline join of the list. -/
theorem mem_intercalate_split (sep x : String) (l : List String) (hx : x ∈ l) :
    ∃ pre post, String.intercalate sep l = pre ++ x ++ post := by
  cases l with
  | nil => cases hx
  | cons a rest =>
      rcases List.mem_cons.mp hx with h | h
      · exact ⟨"", sepConcat sep rest, by
          simp [intercalate_eq_sepConcat, h, String.empty_append]⟩
      · rcases sepConcat_split sep x rest h with ⟨pre, post, hpre⟩
        exact ⟨a ++ pre, post, by
          simp [intercalate_eq_sepConcat, hpre, String.append_assoc]⟩

/-! ## C7 / C10: server-callback reply mapping -/

/-- C7: the server-callback handler's reply follows the JSON-RPC code
mapping: missing `path`/`content` on `fs/write_text_file` is answered with
-32602; a failing file operation on `fs/read_text_file` or
`fs/write_text_file` is answered with -32603 and a message containing the
underlying I/O failure text; a successful read returns
`content`/`path`/`sessionId`, a successful write returns a null result;
any method other than the five served ones is answered with -32601. -/
theorem server_callback_code_mapping (fs : Fs) (params : Json)
    (method : String) (path content e : String) :
    ((params.getField "path" >>= Json.asStr) = none →
      handle_server_request fs "fs/write_text_file" (some params) =
        (.rpcError (-32602) "Missing path", [])) ∧
    ((params.getField "path" >>= Json.asStr) = some path →
      (params.getField "content" >>= Json.asStr) = none →
      handle_server_request fs "fs/write_text_file" (some params) =
        (.rpcError (-32602) "Missing content", [])) ∧
    ((params.getField "path" >>= Json.asStr) = some path →
      fs.readFile path = .error e →
      handle_server_request fs "fs/read_text_file" (some params) =
        (.rpcError (-32603) ("Failed to read file: " ++ e), [.readOp path]) ∧
      ∃ pre post, "Failed to read file: " ++ e = pre ++ e ++ post) ∧
    ((params.getField "path" >>= Json.asStr) = some path →
      (params.getField "content" >>= Json.asStr) = some content →
      fs.writeFile path content = .error e →
      handle_server_request fs "fs/write_text_file" (some params) =
        (.rpcError (-32603) ("Failed to write file: " ++ e),
         [.writeOp path content]) ∧
      ∃ pre post, "Failed to write file: " ++ e = pre ++ e ++ post) ∧
    ((params.getField "path" >>= Json.asStr) = some path →
      fs.readFile path = .ok content →
      handle_server_request fs "fs/read_text_file" (some params) =
        (.result (Json.obj [("content", .str content), ("path", .str path),
          ("sessionId",
            .str (((params.getField "sessionId" >>= Json.asStr)).getD ""))]),
         [.readOp path])) ∧
    ((params.getField "path" >>= Json.asStr) = some path →
      (params.getField "content" >>= Json.asStr) = some content →
      fs.writeFile path content = .ok () →
      handle_server_request fs "fs/write_text_file" (some params) =
        (.result Json.null, [.writeOp path content])) ∧
    (method ∉ ["session/request_permission", "fs/read_text_file",
        "fs/write_text_file", "_iflow/user/questions", "_iflow/plan/exit"] →
      ∀ p0 : Option Json, handle_server_request fs method p0 =
        (.rpcError (-32601) "Method not found", [])) := by
  refine ⟨?_, ?_, ?_, ?_, ?_, ?_, ?_⟩
  · intro h; simp [handle_server_request, h]
  · intro h hc; simp [handle_server_request, h, hc]
  · intro h hr
    refine ⟨by simp [handle_server_request, h, hr], "Failed to read file: ", "", ?_⟩
    simp [String.append_empty]
  · intro h hc hw
    refine ⟨by simp [handle_server_request, h, hc, hw],
      "Failed to write file: ", "", ?_⟩
    simp [String.append_empty]
  · intro h hr; simp [handle_server_request, h, hr]
  · intro h hc hw; simp [handle_server_request, h, hc, hw]
  · intro h p0
    simp only [List.mem_cons, List.mem_singleton, not_or] at h
    obtain ⟨h1, h2, h3, h4, h5, _⟩ := h
    simp [handle_server_request, h1, h2, h3, h4, h5]

/-- File-system stub used by the witnesses. -/
def fsDemo : Fs :=
  { readFile := fun p =>
      if p = "/missing" then .error "No such file (os error 2)" else .ok "data"
    writeFile := fun p _ =>
      if p = "/ro" then .error "Permission denied" else .ok () }

/-- Witness for C7 at concrete inputs. -/
theorem server_callback_code_mapping_witness :
    ((Json.obj []).getField "path" >>= Json.asStr) = none ∧
    handle_server_request fsDemo "fs/write_text_file" (some (Json.obj [])) =
      (.rpcError (-32602) "Missing path", []) ∧
    fsDemo.readFile "/missing" = .error "No such file (os error 2)" ∧
    handle_server_request fsDemo "fs/read_text_file"
        (some (Json.obj [("path", .str "/missing")])) =
      (.rpcError (-32603) "Failed to read file: No such file (os error 2)",
       [.readOp "/missing"]) ∧
    handle_server_request fsDemo "unknown/method" none =
      (.rpcError (-32601) "Method not found", []) := by
  refine ⟨rfl, ?_, rfl, ?_, ?_⟩
  · exact (server_callback_code_mapping fsDemo (Json.obj []) "m" "p" "c" "e").1 rfl
  · exact ((server_callback_code_mapping fsDemo
      (Json.obj [("path", .str "/missing")]) "m" "/missing" "c"
      "No such file (os error 2)").2.2.1 rfl rfl).1
  · exact (server_callback_code_mapping fsDemo (Json.obj []) "unknown/method"
      "p" "c" "e").2.2.2.2.2.2 (by decide) none

/-- C10: an inbound `fs/read_text_file` request whose params lack a string
`path` is answered with -32602 and message "Missing path", and no file
operation is attempted (the performed-operation list is empty). -/
theorem read_missing_path_invalid_params (fs : Fs) (params : Json)
    (h : (params.getField "path" >>= Json.asStr) = none) :
    handle_server_request fs "fs/read_text_file" (some params) =
      (.rpcError (-32602) "Missing path", []) := by
  simp [handle_server_request, h]

/-- Witness for C10 at a concrete input. -/
theorem read_missing_path_invalid_params_witness :
    ((Json.obj [("content", .str "x")]).getField "path" >>= Json.asStr) = none ∧
    handle_server_request fsDemo "fs/read_text_file"
        (some (Json.obj [("content", .str "x")])) =
      (.rpcError (-32602) "Missing path", []) :=
  ⟨rfl, read_missing_path_invalid_params fsDemo (Json.obj [("content", .str "x")]) rfl⟩

/-! ## C9: diff entries in tool-call renderings -/

/-- C9: a `tool_call` or `tool_call_update` session update whose `content`
array contains a diff entry with string path `p` produces a tool-call event
whose flattened textual rendering contains the literal substring
`"[diff] " ++ p`. -/
theorem diff_rendering_contains_path (update : Json) (items : List Json)
    (item : Json) (p su : String)
    (hsu : (update.getField "sessionUpdate" >>= Json.asStr) = some su)
    (hkind : su = "tool_call" ∨ su = "tool_call_update")
    (hcontent : update.getField "content" = some (.arr items))
    (hitem : item ∈ items)
    (htype : (item.getField "type" >>= Json.asStr) = some "diff")
    (hpath : (item.getField "path" >>= Json.asStr) = some p) :
    ∃ tc : ToolCall, handle_session_update update = [.toolCall tc] ∧
      ∃ s pre post, tc.output = some s ∧ s = pre ++ ("[diff] " ++ p) ++ post := by
  have hmem : ("[diff] " ++ p) ∈ items.filterMap toolContentText :=
    List.mem_filterMap.mpr ⟨item, hitem, by simp [toolContentText, htype, hpath]⟩
  have hne : items.filterMap toolContentText ≠ [] := List.ne_nil_of_mem hmem
  rcases mem_intercalate_split "\n" _ _ hmem with ⟨pre, post, hsplit⟩
  have hout : text_from_tool_contents (Json.arr items) =
      some (String.intercalate "\n" (items.filterMap toolContentText)) := by
    simp [text_from_tool_contents, Json.asArr, List.isEmpty_iff, hne]
  refine ⟨{ id := ((update.getField "toolCallId" >>= Json.asStr).getD "")
            name := (((update.getField "toolName" >>= Json.asStr).orElse
              (fun _ => update.getField "title" >>= Json.asStr)).getD "")
            status := ((update.getField "status" >>= Json.asStr).getD "pending")
            arguments := update.getField "args"
            output := update.getField "content" >>= text_from_tool_contents },
    ?_, String.intercalate "\n" (items.filterMap toolContentText), pre, post,
    ?_, hsplit⟩
  · rcases hkind with h | h <;> subst h <;> simp [handle_session_update, hsu]
  · simp [hcontent, hout]

/-- Witness for C9 at a concrete update. -/
theorem diff_rendering_contains_path_witness :
    ∃ tc : ToolCall,
      handle_session_update (Json.obj
        [("sessionUpdate", .str "tool_call_update"),
         ("toolCallId", .str "t1"),
         ("content", .arr [Json.obj
           [("type", .str "diff"), ("path", .str "src/x.ts")]])]) =
        [.toolCall tc] ∧
      ∃ s pre post, tc.output = some s ∧
        s = pre ++ ("[diff] " ++ "src/x.ts") ++ post :=
  diff_rendering_contains_path
    (Json.obj
      [("sessionUpdate", .str "tool_call_update"),
       ("toolCallId", .str "t1"),
       ("content", .arr [Json.obj
         [("type", .str "diff"), ("path", .str "src/x.ts")]])])
    [Json.obj [("type", .str "diff"), ("path", .str "src/x.ts")]]
    (Json.obj [("type", .str "diff"), ("path", .str "src/x.ts")])
    "src/x.ts" "tool_call_update" rfl (Or.inr rfl) rfl (by simp) rfl rfl

/-! ## C6: reconnect retry policy -/

theorem retry_loop_nil (rc : Nat) : retry_loop rc [] = [] := rfl

theorem retry_loop_cons_true (rc : Nat) (rest : List Bool) (hrc : rc < 5) :
    retry_loop rc (true :: rest) =
      .connectAttempt :: .connectOk :: retry_loop 0 rest := by
  simp [retry_loop, hrc]

theorem retry_loop_cons_false_low (rc : Nat) (rest : List Bool)
    (h5 : rc + 1 < 5) :
    retry_loop rc (false :: rest) =
      .connectAttempt :: .sleepSecs 2 :: retry_loop (rc + 1) rest := by
  have hrc : rc < 5 := by omega
  have hn : ¬ rc + 1 ≥ 5 := by omega
  simp [retry_loop, hrc, hn]

theorem retry_loop_cons_false_high (rc : Nat) (rest : List Bool)
    (hrc : rc < 5) (h5 : rc + 1 ≥ 5) :
    retry_loop rc (false :: rest) = [.connectAttempt, .fatalError] := by
  simp [retry_loop, hrc, h5]

theorem retry_loop_stopped (rc : Nat) (script : List Bool) (hrc : ¬ rc < 5) :
    retry_loop rc script = [] := by
  cases script with
  | nil => rfl
  | cons b rest => simp [retry_loop, hrc]

theorem retry_fatal_last : ∀ (script : List Bool) (rc : Nat),
    RetryEvent.fatalError ∈ retry_loop rc script →
    (retry_loop rc script).getLast? = some RetryEvent.fatalError := by
  intro script
  induction script with
  | nil => intro rc h; simp [retry_loop_nil] at h
  | cons b rest ih =>
      intro rc h
      by_cases hrc : rc < 5
      · cases b with
        | true =>
            rw [retry_loop_cons_true rc rest hrc] at h ⊢
            have hmem : RetryEvent.fatalError ∈ retry_loop 0 rest := by
              simpa using h
            have hne : retry_loop 0 rest ≠ [] := List.ne_nil_of_mem hmem
            rcases hl : retry_loop 0 rest with _ | ⟨c, l⟩
            · exact absurd hl hne
            · rw [List.getLast?_cons_cons, List.getLast?_cons_cons, ← hl]
              exact ih 0 hmem
        | false =>
            by_cases h5 : rc + 1 ≥ 5
            · rw [retry_loop_cons_false_high rc rest hrc h5]
              rfl
            · have h5l : rc + 1 < 5 := by omega
              rw [retry_loop_cons_false_low rc rest h5l] at h ⊢
              have hmem : RetryEvent.fatalError ∈ retry_loop (rc + 1) rest := by
                simpa using h
              have hne : retry_loop (rc + 1) rest ≠ [] := List.ne_nil_of_mem hmem
              rcases hl : retry_loop (rc + 1) rest with _ | ⟨c, l⟩
              · exact absurd hl hne
              · rw [List.getLast?_cons_cons, List.getLast?_cons_cons, ← hl]
                exact ih (rc + 1) hmem
      · rw [retry_loop_stopped rc _ hrc] at h
        cases h

theorem retry_attempts_bound : ∀ (script : List Bool) (rc : Nat),
    (∀ b ∈ script, b = false) →
    (retry_loop rc script).count RetryEvent.connectAttempt ≤ 5 - rc := by
  intro script
  induction script with
  | nil => intro rc _; simp [retry_loop_nil]
  | cons b rest ih =>
      intro rc hfail
      have hb : b = false := hfail b (List.mem_cons_self b rest)
      subst hb
      by_cases hrc : rc < 5
      · by_cases h5 : rc + 1 ≥ 5
        · rw [retry_loop_cons_false_high rc rest hrc h5]
          simp [List.count_cons]
          omega
        · have h5l : rc + 1 < 5 := by omega
          rw [retry_loop_cons_false_low rc rest h5l]
          have := ih (rc + 1) (fun b hb => hfail b (List.mem_cons_of_mem _ hb))
          simp only [List.count_cons]
          simp
          omega
      · rw [retry_loop_stopped rc _ hrc]
        simp

/-- C6: reconnect attempts are capped at 5.  Five consecutive connect
failures from a fresh counter produce exactly five attempts with a fixed
2-second delay between consecutive attempts, then a single fatal error and
nothing further; a successful connect resets the counter to zero; under
consecutive failures no more than five attempts ever occur, and a fatal
error, when emitted, is the last event. -/
theorem reconnect_capped_five (rc : Nat) (rest script : List Bool)
    (hrc : rc < 5) (hfail : ∀ b ∈ script, b = false) :
    retry_loop 0 (List.replicate 5 false ++ rest) =
      [.connectAttempt, .sleepSecs 2, .connectAttempt, .sleepSecs 2,
       .connectAttempt, .sleepSecs 2, .connectAttempt, .sleepSecs 2,
       .connectAttempt, .fatalError] ∧
    retry_loop rc (true :: rest) =
      .connectAttempt :: .connectOk :: retry_loop 0 rest ∧
    (retry_loop 0 script).count RetryEvent.connectAttempt ≤ 5 ∧
    (RetryEvent.fatalError ∈ retry_loop 0 script →
      (retry_loop 0 script).getLast? = some RetryEvent.fatalError) := by
  refine ⟨rfl, ?_, ?_, retry_fatal_last script 0⟩
  · simp [retry_loop, if_pos hrc]
  · have := retry_attempts_bound script 0 hfail
    omega

/-- Witness for C6 at concrete inputs. -/
theorem reconnect_capped_five_witness :
    (0 : Nat) < 5 ∧ (∀ b ∈ [false, false], b = false) ∧
    (retry_loop 0 (List.replicate 5 false ++ []) =
      [.connectAttempt, .sleepSecs 2, .connectAttempt, .sleepSecs 2,
       .connectAttempt, .sleepSecs 2, .connectAttempt, .sleepSecs 2,
       .connectAttempt, .fatalError] ∧
    retry_loop 0 (true :: []) =
      .connectAttempt :: .connectOk :: retry_loop 0 [] ∧
    (retry_loop 0 [false, false]).count RetryEvent.connectAttempt ≤ 5 ∧
    (RetryEvent.fatalError ∈ retry_loop 0 [false, false] →
      (retry_loop 0 [false, false]).getLast? = some RetryEvent.fatalError)) :=
  ⟨by decide, by decide,
   reconnect_capped_five 0 [] [false, false] (by decide) (by decide)⟩

/-! ## Generic run lemmas -/

theorem run_closed (ctx : Ctx) (fs : Fs) (s : ListenerState)
    (h : s.closed = true) : ∀ evs, run ctx fs s evs = (s, []) := by
  intro evs
  cases evs with
  | nil => rfl
  | cons e rest => simp [run, h]

theorem sentPromptTexts_append (a b : List Output) :
    sentPromptTexts (a ++ b) = sentPromptTexts a ++ sentPromptTexts b := by
  induction a with
  | nil => rfl
  | cons o rest ih =>
      cases o <;> simp [sentPromptTexts, ih, List.append_assoc]

/-! ## C4: initialize error response -/

/-- Demo context for the witnesses: every send attempt succeeds. -/
def ctxDemo : Ctx := { workspacePath := "/ws", oracle := fun _ => true }

/-- Connection state right after a successful `initialize` send. -/
def stateAfterInit : ListenerState :=
  { rpcCounter := 2, sends := 1, initId := some 1, loadId := none,
    newId := none, sessionId := none, cachedSessionId := none,
    queuedPrompts := [], pendingPromptIds := [], pendingSetModel := [],
    closed := false }

/-- C4 (amended): a response to the pending initialize request that
carries an `error` field makes the adapter emit exactly one agent-error
event, clear the pending initialize id (so no `session/load` or
`session/new` is issued from that response) and stop processing the
remaining lines of that frame; the connection attempt itself is not ended
— the `closed` flag is untouched, so later frames and commands are still
processed. -/
theorem initialize_error_frame_scoped (ctx : Ctx) (fs : Fs)
    (s : ListenerState) (msg err : Json) (rid : Int) (restLines : List Json)
    (hnomethod : (msg.getField "method" >>= Json.asStr) = none)
    (hid : parse_rpc_id msg = some rid)
    (hinit : s.initId = some rid)
    (herr : msg.getField "error" = some err) :
    handleFrame ctx fs s (msg :: restLines) =
      ({ s with initId := none },
       [Output.emitAgentError ("ACP initialize failed: " ++ err.render)]) ∧
    sentIds (handleFrame ctx fs s (msg :: restLines)).2 = [] ∧
    (handleFrame ctx fs s (msg :: restLines)).1.closed = s.closed := by
  have hline : handleLineFull ctx fs s msg =
      ⟨{ s with initId := none },
       [Output.emitAgentError ("ACP initialize failed: " ++ err.render)],
       true⟩ := by
    simp [handleLineFull, hnomethod, handleResponse, hid, hinit, herr]
  have hframe : handleFrame ctx fs s (msg :: restLines) =
      ({ s with initId := none },
       [Output.emitAgentError ("ACP initialize failed: " ++ err.render)]) := by
    simp [handleFrame, hline]
  rw [hframe]
  exact ⟨rfl, rfl, rfl⟩

/-- Counterexample to C4 as stated: the initialize-error `break` exits
only the line loop, so the connection attempt continues — here a later
user prompt is still sent over it (with the cached session id), and the
connection is not closed. -/
theorem initialize_error_abort_cex :
    (run ctxDemo fsDemo (connectionStart ctxDemo (some "stale") []).1
      [ListenerEvent.frame [Json.obj [("id", .num 1), ("error", .str "boom")]],
       ListenerEvent.cmd (ListenerCommand.userPrompt "hi")]).2 =
      [Output.emitAgentError "ACP initialize failed: \"boom\"",
       Output.sendReq 2 "session/prompt" (build_prompt_params "stale" "hi")] ∧
    (run ctxDemo fsDemo (connectionStart ctxDemo (some "stale") []).1
      [ListenerEvent.frame [Json.obj [("id", .num 1), ("error", .str "boom")]],
       ListenerEvent.cmd (ListenerCommand.userPrompt "hi")]).1.closed = false :=
  ⟨rfl, rfl⟩

/-- Witness for the amended C4 at a concrete error response, with a
non-empty frame remainder that is skipped. -/
theorem initialize_error_frame_scoped_witness :
    ((Json.obj [("id", .num 1), ("error", .str "boom")]).getField "method" >>=
      Json.asStr) = none ∧
    parse_rpc_id (Json.obj [("id", .num 1), ("error", .str "boom")]) = some 1 ∧
    stateAfterInit.initId = some 1 ∧
    (handleFrame ctxDemo fsDemo stateAfterInit
        [Json.obj [("id", .num 1), ("error", .str "boom")],
         Json.obj [("id", .num 99)]] =
      ({ stateAfterInit with initId := none },
       [Output.emitAgentError
         ("ACP initialize failed: " ++ (Json.str "boom").render)]) ∧
     sentIds (handleFrame ctxDemo fsDemo stateAfterInit
        [Json.obj [("id", .num 1), ("error", .str "boom")],
         Json.obj [("id", .num 99)]]).2 = [] ∧
     (handleFrame ctxDemo fsDemo stateAfterInit
        [Json.obj [("id", .num 1), ("error", .str "boom")],
         Json.obj [("id", .num 99)]]).1.closed = stateAfterInit.closed) :=
  ⟨rfl, rfl, rfl,
   initialize_error_frame_scoped ctxDemo fsDemo stateAfterInit
     (Json.obj [("id", .num 1), ("error", .str "boom")]) (.str "boom") 1
     [Json.obj [("id", .num 99)]] rfl rfl rfl rfl⟩

/-! ## C5: session/new result lacking sessionId -/

/-- Connection state awaiting the `session/new` response. -/
def stateAwaitNew : ListenerState :=
  { rpcCounter := 3, sends := 2, initId := none, loadId := none,
    newId := some 2, sessionId := none, cachedSessionId := none,
    queuedPrompts := ["queued prompt"], pendingPromptIds := [],
    pendingSetModel := [], closed := false }

/-- C5 (amended): a response to the pending `session/new` request without
an `error` field whose result lacks a string `sessionId` emits an
agent-error and never marks the session ready: the active session id
remains unset, the cached id is cleared, the prompt queue is not drained
and no `session/prompt` is sent, and the remaining lines of that frame are
skipped — but the connection attempt is not ended; the `closed` flag is
untouched and later frames and commands are still processed. -/
theorem session_new_missing_id_not_ready (ctx : Ctx) (fs : Fs)
    (s : ListenerState) (msg : Json) (rid : Int) (restLines : List Json)
    (hnomethod : (msg.getField "method" >>= Json.asStr) = none)
    (hid : parse_rpc_id msg = some rid)
    (hinit : s.initId ≠ some rid)
    (hload : s.loadId ≠ some rid)
    (hnew : s.newId = some rid)
    (herr : msg.getField "error" = none)
    (hsid : ((msg.getField "result").bind
      (fun r => r.getField "sessionId") >>= Json.asStr) = none) :
    handleFrame ctx fs s (msg :: restLines) =
      ({ s with newId := none, sessionId := none, cachedSessionId := none },
       [Output.emitAgentError "session/new succeeded but no sessionId returned"]) ∧
    (handleFrame ctx fs s (msg :: restLines)).1.sessionId = none ∧
    (handleFrame ctx fs s (msg :: restLines)).1.queuedPrompts = s.queuedPrompts ∧
    sentPromptTexts (handleFrame ctx fs s (msg :: restLines)).2 = [] ∧
    (handleFrame ctx fs s (msg :: restLines)).1.closed = s.closed := by
  have hline : handleLineFull ctx fs s msg =
      ⟨{ s with newId := none, sessionId := none, cachedSessionId := none },
       [Output.emitAgentError "session/new succeeded but no sessionId returned"],
       true⟩ := by
    simp [handleLineFull, hnomethod, handleResponse, hid, hinit, hload, hnew,
      herr, hsid]
  have hframe : handleFrame ctx fs s (msg :: restLines) =
      ({ s with newId := none, sessionId := none, cachedSessionId := none },
       [Output.emitAgentError "session/new succeeded but no sessionId returned"]) := by
    simp [handleFrame, hline]
  rw [hframe]
  exact ⟨rfl, rfl, rfl, rfl, rfl⟩

/-- Counterexample to C5's "fatal for this connection": after the
missing-sessionId response the connection attempt continues — a later
frame's `session/update` is still translated into a stream event, and the
connection is not closed. -/
theorem session_new_missing_id_fatal_cex :
    (run ctxDemo fsDemo stateAwaitNew
      [ListenerEvent.frame [Json.obj [("id", .num 2), ("result", Json.obj [])]],
       ListenerEvent.frame [Json.obj [("method", .str "session/update"),
         ("params", Json.obj [("update", Json.obj
           [("sessionUpdate", .str "agent_message_chunk"),
            ("content", Json.obj [("type", .str "text"),
              ("text", .str "still alive")])])])]]]).2 =
      [Output.emitAgentError "session/new succeeded but no sessionId returned",
       Output.router (RouterEvent.streamMessage "still alive" "content"),
       Output.commandRegistryFromUpdate (Json.obj
         [("sessionUpdate", .str "agent_message_chunk"),
          ("content", Json.obj [("type", .str "text"),
            ("text", .str "still alive")])])] ∧
    (run ctxDemo fsDemo stateAwaitNew
      [ListenerEvent.frame [Json.obj [("id", .num 2), ("result", Json.obj [])]],
       ListenerEvent.frame [Json.obj [("method", .str "session/update"),
         ("params", Json.obj [("update", Json.obj
           [("sessionUpdate", .str "agent_message_chunk"),
            ("content", Json.obj [("type", .str "text"),
              ("text", .str "still alive")])])])]]]).1.closed = false :=
  ⟨rfl, rfl⟩

/-- Witness for the amended C5 at a concrete result without a sessionId,
with a non-empty frame remainder that is skipped. -/
theorem session_new_missing_id_not_ready_witness :
    parse_rpc_id (Json.obj [("id", .num 2), ("result", Json.obj [])]) = some 2 ∧
    stateAwaitNew.newId = some 2 ∧
    (handleFrame ctxDemo fsDemo stateAwaitNew
        [Json.obj [("id", .num 2), ("result", Json.obj [])],
         Json.obj [("id", .num 99)]] =
      ({ stateAwaitNew with
          newId := none, sessionId := none, cachedSessionId := none },
       [Output.emitAgentError "session/new succeeded but no sessionId returned"]) ∧
     (handleFrame ctxDemo fsDemo stateAwaitNew
        [Json.obj [("id", .num 2), ("result", Json.obj [])],
         Json.obj [("id", .num 99)]]).1.sessionId = none ∧
     (handleFrame ctxDemo fsDemo stateAwaitNew
        [Json.obj [("id", .num 2), ("result", Json.obj [])],
         Json.obj [("id", .num 99)]]).1.queuedPrompts =
       stateAwaitNew.queuedPrompts ∧
     sentPromptTexts (handleFrame ctxDemo fsDemo stateAwaitNew
        [Json.obj [("id", .num 2), ("result", Json.obj [])],
         Json.obj [("id", .num 99)]]).2 = [] ∧
     (handleFrame ctxDemo fsDemo stateAwaitNew
        [Json.obj [("id", .num 2), ("result", Json.obj [])],
         Json.obj [("id", .num 99)]]).1.closed = stateAwaitNew.closed) :=
  ⟨rfl, rfl,
   session_new_missing_id_not_ready ctxDemo fsDemo stateAwaitNew
     (Json.obj [("id", .num 2), ("result", Json.obj [])]) 2
     [Json.obj [("id", .num 99)]]
     rfl rfl (by simp [stateAwaitNew]) (by simp [stateAwaitNew]) rfl rfl rfl⟩

/-! ## C8: set_model response without currentModelId -/

/-- C8: a response to a pending `session/set_model` request without an
`error` field whose result lacks a non-empty `currentModelId` string
resolves the stored reply channel with exactly the originally requested
model name and emits a model-registry event carrying that same value. -/
theorem set_model_fallback_requested (ctx : Ctx) (fs : Fs)
    (s : ListenerState) (msg : Json) (rid : Int) (model : String)
    (hnomethod : (msg.getField "method" >>= Json.asStr) = none)
    (hid : parse_rpc_id msg = some rid)
    (hinit : s.initId ≠ some rid)
    (hload : s.loadId ≠ some rid)
    (hnew : s.newId ≠ some rid)
    (hprompt : rid ∉ s.pendingPromptIds)
    (hlookup : s.pendingSetModel.lookup rid = some model)
    (herr : msg.getField "error" = none)
    (hcur : (((msg.getField "result").bind
        (fun r => r.getField "currentModelId") >>= Json.asStr).map
          String.trim).filter (fun v => v != "") = none) :
    (handleLine ctx fs s msg).2 =
      [Output.emitModelRegistry [] model, Output.resolveModelOk model] := by
  simp [handleLine, handleLineFull, hnomethod, handleResponse, hid, hinit,
    hload, hnew, hprompt, hlookup, herr]
  have hcur2 : (Option.filter (fun v => v != "")
      (((msg.getField "result").bind fun r => r.getField "currentModelId").bind
        fun a => Option.map String.trim a.asStr)) = none := by
    rw [← hcur]
    congr 1
    cases (msg.getField "result").bind fun r => r.getField "currentModelId" <;> rfl
  rw [hcur2]
  rfl

/-- Ready-session state with one pending set-model request. -/
def stateSetModel : ListenerState :=
  { rpcCounter := 6, sends := 4, initId := none, loadId := none,
    newId := none, sessionId := some "S", cachedSessionId := some "S",
    queuedPrompts := [], pendingPromptIds := [],
    pendingSetModel := [(5, "glm-4.6")], closed := false }

/-- Witness for C8 at a concrete reply lacking `currentModelId`. -/
theorem set_model_fallback_requested_witness :
    stateSetModel.pendingSetModel.lookup 5 = some "glm-4.6" ∧
    (Option.filter (fun v => v != "")
      (Option.map String.trim
        ((((Json.obj [("id", .num 5), ("result", Json.obj [])]).getField
          "result").bind (fun r => r.getField "currentModelId")) >>=
            Json.asStr))) = none ∧
    (handleLine ctxDemo fsDemo stateSetModel
        (Json.obj [("id", .num 5), ("result", Json.obj [])])).2 =
      [Output.emitModelRegistry [] "glm-4.6", Output.resolveModelOk "glm-4.6"] :=
  ⟨rfl, rfl,
   set_model_fallback_requested ctxDemo fsDemo stateSetModel
     (Json.obj [("id", .num 5), ("result", Json.obj [])]) 5 "glm-4.6"
     rfl rfl (by simp [stateSetModel]) (by simp [stateSetModel])
     (by simp [stateSetModel]) (by simp [stateSetModel]) rfl rfl rfl⟩

/-! ## C1: FIFO prompt queue and ordered drain -/

theorem extract_build_prompt (sid p : String) :
    extractPromptText (build_prompt_params sid p) = some p := rfl

theorem drainSuccessCount_all_true (oracle : Nat → Bool)
    (h : ∀ n, oracle n = true) :
    ∀ (q : List String) (start : Nat),
      drainSuccessCount oracle start q = q.length := by
  intro q
  induction q with
  | nil => intro start; rfl
  | cons p rest ih =>
      intro start
      simp [drainSuccessCount, h, ih]

theorem drainLoop_fifo (ctx : Ctx) (sid : String) :
    ∀ (q : List String) (s : ListenerState), s.queuedPrompts = [] →
    sentPromptTexts (drainLoop ctx sid q s).2 =
      q.take (drainSuccessCount ctx.oracle s.sends q) ∧
    (drainLoop ctx sid q s).1.queuedPrompts =
      q.drop (drainSuccessCount ctx.oracle s.sends q) := by
  intro q
  induction q with
  | nil =>
      intro s hq
      simp [drainLoop, drainSuccessCount, sentPromptTexts, hq]
  | cons p rest ih =>
      intro s hq
      by_cases horacle : ctx.oracle s.sends = true
      · have hrec := ih { s with
          rpcCounter := s.rpcCounter + 1, sends := s.sends + 1,
          pendingPromptIds := s.rpcCounter :: s.pendingPromptIds } hq
        have hunfold : drainLoop ctx sid (p :: rest) s =
            ((drainLoop ctx sid rest { s with
                rpcCounter := s.rpcCounter + 1, sends := s.sends + 1,
                pendingPromptIds := s.rpcCounter :: s.pendingPromptIds }).1,
             Output.sendReq s.rpcCounter "session/prompt"
                 (build_prompt_params sid p) ::
               (drainLoop ctx sid rest { s with
                 rpcCounter := s.rpcCounter + 1, sends := s.sends + 1,
                 pendingPromptIds := s.rpcCounter :: s.pendingPromptIds }).2) := by
          simp [drainLoop, next_rpc_id, horacle]
        have hcnt : drainSuccessCount ctx.oracle s.sends (p :: rest) =
            drainSuccessCount ctx.oracle (s.sends + 1) rest + 1 := by
          simp [drainSuccessCount, horacle]
        rw [hunfold, hcnt]
        constructor
        · simp [sentPromptTexts, extract_build_prompt, hrec.1,
            List.take_succ_cons]
        · simp [hrec.2, List.drop_succ_cons]
      · have hunfold : drainLoop ctx sid (p :: rest) s =
            ({ s with
                rpcCounter := s.rpcCounter + 1, sends := s.sends + 1,
                queuedPrompts := p :: rest },
             [Output.sendFailed "session/prompt"]) := by
          simp [drainLoop, next_rpc_id, horacle]
        have hcnt : drainSuccessCount ctx.oracle s.sends (p :: rest) = 0 := by
          simp [drainSuccessCount, horacle]
        rw [hunfold, hcnt]
        exact ⟨rfl, rfl⟩

/-- While no session id exists, user prompts are enqueued in FIFO order and
nothing is sent. -/
theorem run_prompts_queued (ctx : Ctx) (fs : Fs) :
    ∀ (prompts : List String) (s : ListenerState),
    s.sessionId = none → s.closed = false →
    run ctx fs s (prompts.map
        (fun p => ListenerEvent.cmd (ListenerCommand.userPrompt p))) =
      ({ s with queuedPrompts := s.queuedPrompts ++ prompts }, []) := by
  intro prompts
  induction prompts with
  | nil => intro s hsid hclosed; simp [run]
  | cons p rest ih =>
      intro s hsid hclosed
      have hstep : step ctx fs s
          (ListenerEvent.cmd (ListenerCommand.userPrompt p)) =
          ({ s with queuedPrompts := s.queuedPrompts ++ [p] }, []) := by
        simp [step, handleCommand, hsid]
      have hrec := ih { s with queuedPrompts := s.queuedPrompts ++ [p] }
        hsid hclosed
      have hrun : run ctx fs s ((p :: rest).map
          (fun x => ListenerEvent.cmd (ListenerCommand.userPrompt x))) =
          run ctx fs { s with queuedPrompts := s.queuedPrompts ++ [p] }
            (rest.map (fun x => ListenerEvent.cmd (ListenerCommand.userPrompt x))) := by
        simp [run, hclosed, hstep]
      rw [hrun, hrec]
      simp [List.append_assoc]

/-- C1: prompts submitted while no session id exists are queued in FIFO
order with nothing sent; on the successful `session/load` or `session/new`
response that makes the session ready, the queued prompts are sent as
`session/prompt` requests in original submission order — the sent prefix
and the remaining queue are exactly a `take`/`drop` split of the queue, so
there are no gaps and no reordering, and a mid-drain send failure leaves
the failed prompt at the front of the remaining queue; if every send
succeeds, the whole queue is sent and emptied.  The `session/new` scenario
drains the just-queued prompts; the `session/load` scenario (state `sL`,
whose queue survives from an earlier connection) drains `sL`'s queue the
same way. -/
theorem prompt_queue_fifo_drain (ctx : Ctx) (fs : Fs) (s : ListenerState)
    (prompts : List String) (msgNew resNew : Json) (ridNew : Int)
    (sidNew : String)
    (sL : ListenerState) (msgLoad : Json) (ridLoad : Int) (sidLoad : String)
    (hsession : s.sessionId = none) (hclosed : s.closed = false)
    (hnomethodN : (msgNew.getField "method" >>= Json.asStr) = none)
    (hidN : parse_rpc_id msgNew = some ridNew)
    (hinitN : s.initId ≠ some ridNew)
    (hloadN : s.loadId ≠ some ridNew)
    (hnewN : s.newId = some ridNew)
    (herrN : msgNew.getField "error" = none)
    (hresN : msgNew.getField "result" = some resNew)
    (hsidN : (resNew.getField "sessionId" >>= Json.asStr) = some sidNew)
    (hnomethodL : (msgLoad.getField "method" >>= Json.asStr) = none)
    (hidL : parse_rpc_id msgLoad = some ridLoad)
    (hinitL : sL.initId ≠ some ridLoad)
    (hloadL : sL.loadId = some ridLoad)
    (herrL : msgLoad.getField "error" = none)
    (hsidL : sL.sessionId = some sidLoad) :
    run ctx fs s (prompts.map
        (fun p => ListenerEvent.cmd (ListenerCommand.userPrompt p))) =
      ({ s with queuedPrompts := s.queuedPrompts ++ prompts }, []) ∧
    (let s1 := { s with queuedPrompts := s.queuedPrompts ++ prompts }
     let q := s.queuedPrompts ++ prompts
     let k := drainSuccessCount ctx.oracle s.sends q
     sentPromptTexts (handleLine ctx fs s1 msgNew).2 = q.take k ∧
     (handleLine ctx fs s1 msgNew).1.queuedPrompts = q.drop k ∧
     ((∀ n, ctx.oracle n = true) →
       sentPromptTexts (handleLine ctx fs s1 msgNew).2 = q ∧
       (handleLine ctx fs s1 msgNew).1.queuedPrompts = [])) ∧
    (let qL := sL.queuedPrompts
     let kL := drainSuccessCount ctx.oracle sL.sends qL
     sentPromptTexts (handleLine ctx fs sL msgLoad).2 = qL.take kL ∧
     (handleLine ctx fs sL msgLoad).1.queuedPrompts = qL.drop kL ∧
     ((∀ n, ctx.oracle n = true) →
       sentPromptTexts (handleLine ctx fs sL msgLoad).2 = qL ∧
       (handleLine ctx fs sL msgLoad).1.queuedPrompts = [])) := by
  refine ⟨run_prompts_queued ctx fs prompts s hsession hclosed, ?_, ?_⟩
  · set s1 := { s with queuedPrompts := s.queuedPrompts ++ prompts }
    set q := s.queuedPrompts ++ prompts with hqdef
    have hline : handleLine ctx fs s1 msgNew =
        (let s2 := { s with
          queuedPrompts := [], newId := none,
          sessionId := some sidNew, cachedSessionId := some sidNew }
         let dr := drainLoop ctx sidNew q s2
         (dr.1, Output.emitRegistries resNew :: dr.2)) := by
      simp [handleLine, handleLineFull, hnomethodN, handleResponse, hidN,
        hinitN, hloadN, hnewN, herrN, hresN, hsidN, s1]
    set s2 : ListenerState := { s with
      queuedPrompts := [], newId := none,
      sessionId := some sidNew, cachedSessionId := some sidNew } with hs2def
    have hdr := drainLoop_fifo ctx sidNew q s2 rfl
    have hsends : s2.sends = s.sends := rfl
    rw [hsends] at hdr
    have htexts : sentPromptTexts (handleLine ctx fs s1 msgNew).2 =
        q.take (drainSuccessCount ctx.oracle s.sends q) := by
      rw [hline]
      show sentPromptTexts
        (Output.emitRegistries resNew :: (drainLoop ctx sidNew q s2).2) = _
      rw [show sentPromptTexts (Output.emitRegistries resNew ::
        (drainLoop ctx sidNew q s2).2) =
        sentPromptTexts (drainLoop ctx sidNew q s2).2 from rfl]
      exact hdr.1
    have hqueue : (handleLine ctx fs s1 msgNew).1.queuedPrompts =
        q.drop (drainSuccessCount ctx.oracle s.sends q) := by
      rw [hline]
      exact hdr.2
    refine ⟨htexts, hqueue, ?_⟩
    intro hall
    have hk : drainSuccessCount ctx.oracle s.sends q = q.length :=
      drainSuccessCount_all_true ctx.oracle hall q s.sends
    rw [htexts, hqueue, hk, List.take_length, List.drop_length]
    exact ⟨rfl, rfl⟩
  · have hdr := drainLoop_fifo ctx sidLoad sL.queuedPrompts
      { sL with loadId := none, queuedPrompts := [] } rfl
    have hsends : ({ sL with
      loadId := none, queuedPrompts := [] } : ListenerState).sends =
        sL.sends := rfl
    rw [hsends] at hdr
    have hmain : sentPromptTexts (handleLine ctx fs sL msgLoad).2 =
        sL.queuedPrompts.take
          (drainSuccessCount ctx.oracle sL.sends sL.queuedPrompts) ∧
        (handleLine ctx fs sL msgLoad).1.queuedPrompts =
        sL.queuedPrompts.drop
          (drainSuccessCount ctx.oracle sL.sends sL.queuedPrompts) := by
      cases hres : msgLoad.getField "result" with
      | some res =>
          have hline : handleLine ctx fs sL msgLoad =
              ((drainLoop ctx sidLoad sL.queuedPrompts
                  { sL with loadId := none, queuedPrompts := [] }).1,
               ([Output.emitRegistries res] ++
                 [Output.emitStream "✅ iFlow ACP 会话已恢复" "system"]) ++
                 (drainLoop ctx sidLoad sL.queuedPrompts
                   { sL with loadId := none, queuedPrompts := [] }).2) := by
            simp [handleLine, handleLineFull, hnomethodL, handleResponse,
              hidL, hinitL, hloadL, herrL, hsidL, hres]
          rw [hline]
          refine ⟨?_, hdr.2⟩
          rw [sentPromptTexts_append]
          rw [show sentPromptTexts ([Output.emitRegistries res] ++
            [Output.emitStream "✅ iFlow ACP 会话已恢复" "system"]) = []
            from rfl]
          rw [List.nil_append]
          exact hdr.1
      | none =>
          have hline : handleLine ctx fs sL msgLoad =
              ((drainLoop ctx sidLoad sL.queuedPrompts
                  { sL with loadId := none, queuedPrompts := [] }).1,
               ([] ++
                 [Output.emitStream "✅ iFlow ACP 会话已恢复" "system"]) ++
                 (drainLoop ctx sidLoad sL.queuedPrompts
                   { sL with loadId := none, queuedPrompts := [] }).2) := by
            simp [handleLine, handleLineFull, hnomethodL, handleResponse,
              hidL, hinitL, hloadL, herrL, hsidL, hres]
          rw [hline]
          refine ⟨?_, hdr.2⟩
          rw [sentPromptTexts_append]
          rw [show sentPromptTexts ([] ++
            [Output.emitStream "✅ iFlow ACP 会话已恢复" "system"]) = []
            from rfl]
          rw [List.nil_append]
          exact hdr.1
    refine ⟨hmain.1, hmain.2, ?_⟩
    intro hall
    have hk : drainSuccessCount ctx.oracle sL.sends sL.queuedPrompts =
        sL.queuedPrompts.length :=
      drainSuccessCount_all_true ctx.oracle hall sL.queuedPrompts sL.sends
    rw [hmain.1, hmain.2, hk, List.take_length, List.drop_length]
    exact ⟨rfl, rfl⟩

/-- Ready-session state awaiting a `session/load` response, with a queue
left over from an earlier connection. -/
def stateAwaitLoad : ListenerState :=
  { rpcCounter := 3, sends := 2, initId := none, loadId := some 2,
    newId := none, sessionId := some "S0", cachedSessionId := some "S0",
    queuedPrompts := ["leftover"], pendingPromptIds := [],
    pendingSetModel := [], closed := false }

/-- Witness for C1: two prompts queued before readiness drain in order on
the `session/new` response, and a leftover queue drains on a `session/load`
response. -/
theorem prompt_queue_fifo_drain_witness :
    stateAwaitNew.sessionId = none ∧
    stateAwaitNew.newId = some 2 ∧
    stateAwaitLoad.loadId = some 2 ∧
    (run ctxDemo fsDemo stateAwaitNew (["p1", "p2"].map
        (fun p => ListenerEvent.cmd (ListenerCommand.userPrompt p))) =
      ({ stateAwaitNew with
          queuedPrompts := stateAwaitNew.queuedPrompts ++ ["p1", "p2"] }, []) ∧
    (let s1 := { stateAwaitNew with
        queuedPrompts := stateAwaitNew.queuedPrompts ++ ["p1", "p2"] }
     let q := stateAwaitNew.queuedPrompts ++ ["p1", "p2"]
     let k := drainSuccessCount ctxDemo.oracle stateAwaitNew.sends q
     sentPromptTexts (handleLine ctxDemo fsDemo s1
       (Json.obj [("id", .num 2),
         ("result", Json.obj [("sessionId", .str "S")])])).2 = q.take k ∧
     (handleLine ctxDemo fsDemo s1
       (Json.obj [("id", .num 2),
         ("result", Json.obj [("sessionId", .str "S")])])).1.queuedPrompts =
       q.drop k ∧
     ((∀ n, ctxDemo.oracle n = true) →
       sentPromptTexts (handleLine ctxDemo fsDemo s1
         (Json.obj [("id", .num 2),
           ("result", Json.obj [("sessionId", .str "S")])])).2 = q ∧
       (handleLine ctxDemo fsDemo s1
         (Json.obj [("id", .num 2),
           ("result", Json.obj [("sessionId", .str "S")])])).1.queuedPrompts
         = [])) ∧
    (let qL := stateAwaitLoad.queuedPrompts
     let kL := drainSuccessCount ctxDemo.oracle stateAwaitLoad.sends qL
     sentPromptTexts (handleLine ctxDemo fsDemo stateAwaitLoad
       (Json.obj [("id", .num 2), ("result", Json.obj [])])).2 = qL.take kL ∧
     (handleLine ctxDemo fsDemo stateAwaitLoad
       (Json.obj [("id", .num 2),
         ("result", Json.obj [])])).1.queuedPrompts = qL.drop kL ∧
     ((∀ n, ctxDemo.oracle n = true) →
       sentPromptTexts (handleLine ctxDemo fsDemo stateAwaitLoad
         (Json.obj [("id", .num 2), ("result", Json.obj [])])).2 = qL ∧
       (handleLine ctxDemo fsDemo stateAwaitLoad
         (Json.obj [("id", .num 2),
           ("result", Json.obj [])])).1.queuedPrompts = []))) :=
  ⟨rfl, rfl, rfl,
   prompt_queue_fifo_drain ctxDemo fsDemo stateAwaitNew ["p1", "p2"]
     (Json.obj [("id", .num 2),
       ("result", Json.obj [("sessionId", .str "S")])])
     (Json.obj [("sessionId", .str "S")]) 2 "S"
     stateAwaitLoad (Json.obj [("id", .num 2), ("result", Json.obj [])])
     2 "S0"
     rfl rfl rfl rfl (by simp [stateAwaitNew]) (by simp [stateAwaitNew])
     rfl rfl rfl rfl
     rfl rfl (by simp [stateAwaitLoad]) rfl rfl rfl⟩

/-! ## Trace-level correlator invariant machinery (for C2 and C3) -/

theorem sentIds_append (a b : List Output) :
    sentIds (a ++ b) = sentIds a ++ sentIds b := by
  induction a with
  | nil => rfl
  | cons o rest ih => cases o <;> simp [sentIds, ih]

theorem newSendCount_append (a b : List Output) :
    newSendCount (a ++ b) = newSendCount a + newSendCount b := by
  induction a with
  | nil => simp [newSendCount]
  | cons o rest ih => cases o <;> simp [newSendCount, ih] <;> omega

theorem sentIds_map_router (l : List RouterEvent) :
    sentIds (l.map Output.router) = [] := by
  induction l with
  | nil => rfl
  | cons o rest ih => simp [sentIds, ih]

theorem newSendCount_map_router (l : List RouterEvent) :
    newSendCount (l.map Output.router) = 0 := by
  induction l with
  | nil => rfl
  | cons o rest ih => simp [newSendCount, ih]

theorem sentIds_map_fsOp (l : List FsOp) :
    sentIds (l.map Output.fsOp) = [] := by
  induction l with
  | nil => rfl
  | cons o rest ih => simp [sentIds, ih]

theorem newSendCount_map_fsOp (l : List FsOp) :
    newSendCount (l.map Output.fsOp) = 0 := by
  induction l with
  | nil => rfl
  | cons o rest ih => simp [newSendCount, ih]

theorem sentIds_emit_task_finish (reason : String) :
    sentIds (emit_task_finish reason) = [] := by
  by_cases h : reason = "end_turn" <;> simp [emit_task_finish, h, sentIds]

theorem newSendCount_emit_task_finish (reason : String) :
    newSendCount (emit_task_finish reason) = 0 := by
  by_cases h : reason = "end_turn" <;> simp [emit_task_finish, h, newSendCount]

theorem pendCount_expand (s : ListenerState) (i : Int) :
    pendCount s i =
      s.initId.toList.count i + s.loadId.toList.count i +
      s.newId.toList.count i + s.pendingPromptIds.count i +
      (s.pendingSetModel.map Prod.fst).count i := by
  simp [pendCount, pendingIds, List.count_append]
  omega

theorem good_nodup (s : ListenerState) (h : Good s) :
    (pendingIds s).Nodup := by
  rw [List.nodup_iff_count_le_one]
  intro i
  exact h.1 i

/-- Per-step contract glued along a trace: the correlator invariant is
preserved, the counter is monotone, the ids sent in this step are strictly
increasing and live in the window between the old and new counter values,
and the number of `session/new` sends is bounded by the drop of
`loadTokens`. -/
def StepSpec (s s' : ListenerState) (outs : List Output) : Prop :=
  Good s' ∧ s.rpcCounter ≤ s'.rpcCounter ∧
  List.Pairwise (· < ·) (sentIds outs) ∧
  (∀ i ∈ sentIds outs, s.rpcCounter ≤ i ∧ i < s'.rpcCounter) ∧
  newSendCount outs + loadTokens s' ≤ loadTokens s

theorem stepSpec_trans (s1 s2 s3 : ListenerState) (o1 o2 : List Output)
    (h1 : StepSpec s1 s2 o1) (h2 : StepSpec s2 s3 o2) :
    StepSpec s1 s3 (o1 ++ o2) := by
  obtain ⟨g1, c1, p1, b1, t1⟩ := h1
  obtain ⟨g2, c2, p2, b2, t2⟩ := h2
  refine ⟨g2, le_trans c1 c2, ?_, ?_, ?_⟩
  · rw [sentIds_append]
    rw [List.pairwise_append]
    refine ⟨p1, p2, ?_⟩
    intro a ha b hb
    exact lt_of_lt_of_le (b1 a ha).2 (b2 b hb).1
  · rw [sentIds_append]
    intro i hi
    rcases List.mem_append.mp hi with hi | hi
    · exact ⟨(b1 i hi).1, lt_of_lt_of_le (b1 i hi).2 c2⟩
    · exact ⟨le_trans c1 (b2 i hi).1, (b2 i hi).2⟩
  · rw [newSendCount_append]
    omega

theorem stepSpec_of_noalloc (s s' : ListenerState) (outs : List Output)
    (h : Good s)
    (hcount : ∀ i, pendCount s' i ≤ pendCount s i)
    (hc : s.rpcCounter ≤ s'.rpcCounter)
    (hsent : sentIds outs = [])
    (hnew : newSendCount outs = 0)
    (htok : loadTokens s' ≤ loadTokens s) : StepSpec s s' outs := by
  refine ⟨⟨?_, ?_⟩, hc, ?_, ?_, ?_⟩
  · intro i; exact le_trans (hcount i) (h.1 i)
  · intro i hi
    exact lt_of_lt_of_le (h.2 i (lt_of_lt_of_le hi (hcount i))) hc
  · rw [hsent]; exact List.Pairwise.nil
  · rw [hsent]; intro i hi; cases hi
  · rw [hnew]; simpa using htok

theorem good_of_alloc (s s' : ListenerState) (h : Good s)
    (hcount : ∀ i, pendCount s' i ≤
      pendCount s i + (if s.rpcCounter = i then 1 else 0))
    (hc : s'.rpcCounter = s.rpcCounter + 1) : Good s' := by
  constructor
  · intro i
    by_cases hi : s.rpcCounter = i
    · have h0 : pendCount s i = 0 := by
        by_contra hne
        have hlt := h.2 i (Nat.pos_of_ne_zero hne)
        rw [hi] at hlt
        exact absurd hlt (lt_irrefl i)
      have := hcount i
      rw [h0, if_pos hi] at this
      omega
    · have := hcount i
      rw [if_neg hi] at this
      have h1 := h.1 i
      omega
  · intro i hi
    by_cases heq : s.rpcCounter = i
    · rw [hc, ← heq]
      exact lt_add_one s.rpcCounter
    · have := hcount i
      rw [if_neg heq] at this
      have hpos : 0 < pendCount s i := by omega
      have := h.2 i hpos
      rw [hc]
      omega

theorem stepSpec_of_alloc (s s' : ListenerState) (outs : List Output)
    (h : Good s)
    (hcount : ∀ i, pendCount s' i ≤
      pendCount s i + (if s.rpcCounter = i then 1 else 0))
    (hc : s'.rpcCounter = s.rpcCounter + 1)
    (hsent : sentIds outs = [s.rpcCounter] ∨ sentIds outs = [])
    (hnew : newSendCount outs + loadTokens s' ≤ loadTokens s) :
    StepSpec s s' outs := by
  refine ⟨good_of_alloc s s' h hcount hc, by rw [hc]; omega, ?_, ?_, hnew⟩
  · rcases hsent with hs | hs <;> rw [hs] <;> simp
  · rcases hsent with hs | hs <;> rw [hs]
    · intro i hi
      rcases List.mem_singleton.mp hi with rfl
      exact ⟨le_refl _, by rw [hc]; omega⟩
    · intro i hi; cases hi

theorem drainLoop_spec (ctx : Ctx) (sid : String) :
    ∀ (q : List String) (s : ListenerState), Good s →
    StepSpec s (drainLoop ctx sid q s).1 (drainLoop ctx sid q s).2 := by
  intro q
  induction q with
  | nil =>
      intro s hg
      exact stepSpec_of_noalloc s s [] hg (fun i => le_refl _) (le_refl _)
        rfl rfl (le_refl _)
  | cons p rest ih =>
      intro s hg
      by_cases horacle : ctx.oracle s.sends = true
      · have hunfold : drainLoop ctx sid (p :: rest) s =
            ((drainLoop ctx sid rest { s with
                rpcCounter := s.rpcCounter + 1, sends := s.sends + 1,
                pendingPromptIds := s.rpcCounter :: s.pendingPromptIds }).1,
             Output.sendReq s.rpcCounter "session/prompt"
                 (build_prompt_params sid p) ::
               (drainLoop ctx sid rest { s with
                 rpcCounter := s.rpcCounter + 1, sends := s.sends + 1,
                 pendingPromptIds := s.rpcCounter :: s.pendingPromptIds }).2) := by
          simp [drainLoop, next_rpc_id, horacle]
      -- the single allocation-and-send of this iteration
        have hspec1 : StepSpec s { s with
            rpcCounter := s.rpcCounter + 1, sends := s.sends + 1,
            pendingPromptIds := s.rpcCounter :: s.pendingPromptIds }
            [Output.sendReq s.rpcCounter "session/prompt"
              (build_prompt_params sid p)] := by
          apply stepSpec_of_alloc _ _ _ hg ?_ ?_ ?_ ?_
          · intro i
            by_cases hci : s.rpcCounter = i <;>
              simp [pendCount_expand, List.count_cons, hci] <;> omega
          · rfl
          · exact Or.inl rfl
          · simp [newSendCount, loadTokens]
        have hrec := ih { s with
          rpcCounter := s.rpcCounter + 1, sends := s.sends + 1,
          pendingPromptIds := s.rpcCounter :: s.pendingPromptIds } hspec1.1
        rw [hunfold]
        have := stepSpec_trans _ _ _ _ _ hspec1 hrec
        simpa using this
      · have hunfold : drainLoop ctx sid (p :: rest) s =
            ({ s with
                rpcCounter := s.rpcCounter + 1, sends := s.sends + 1,
                queuedPrompts := p :: rest },
             [Output.sendFailed "session/prompt"]) := by
          simp [drainLoop, next_rpc_id, horacle]
        have hspec : StepSpec s { s with
            rpcCounter := s.rpcCounter + 1, sends := s.sends + 1,
            queuedPrompts := p :: rest } [Output.sendFailed "session/prompt"] := by
          apply stepSpec_of_noalloc _ _ _ hg ?_ ?_ ?_ ?_ ?_
          · intro i
            exact le_of_eq (by simp [pendCount_expand])
          · exact le_of_lt (lt_add_one _)
          · rfl
          · rfl
          · exact le_refl _
        rw [hunfold]
        exact hspec

theorem handleCommand_spec (ctx : Ctx) (s : ListenerState)
    (c : ListenerCommand) (hg : Good s) :
    StepSpec s (handleCommand ctx s c).1 (handleCommand ctx s c).2 := by
  cases c with
  | userPrompt p =>
      cases hsid : s.sessionId with
      | none =>
          have hunfold : handleCommand ctx s (.userPrompt p) =
              ({ s with queuedPrompts := s.queuedPrompts ++ [p] }, []) := by
            simp [handleCommand, hsid]
          have hspec : StepSpec s
              { s with queuedPrompts := s.queuedPrompts ++ [p] } [] := by
            apply stepSpec_of_noalloc _ _ _ hg ?_ ?_ ?_ ?_ ?_
            · intro i
              exact le_of_eq (by simp [pendCount_expand])
            · exact le_refl _
            · rfl
            · rfl
            · exact le_refl _
          rw [hunfold]
          exact hspec
      | some sid =>
          by_cases horacle : ctx.oracle s.sends = true
          · have hunfold : handleCommand ctx s (.userPrompt p) =
                ({ s with
                    rpcCounter := s.rpcCounter + 1, sends := s.sends + 1,
                    pendingPromptIds := s.rpcCounter :: s.pendingPromptIds },
                 [Output.sendReq s.rpcCounter "session/prompt"
                   (build_prompt_params sid p)]) := by
              simp [handleCommand, next_rpc_id, hsid, horacle]
            have hspec : StepSpec s
                { s with
                    rpcCounter := s.rpcCounter + 1, sends := s.sends + 1,
                    pendingPromptIds := s.rpcCounter :: s.pendingPromptIds }
                [Output.sendReq s.rpcCounter "session/prompt"
                  (build_prompt_params sid p)] := by
              apply stepSpec_of_alloc _ _ _ hg ?_ ?_ ?_ ?_
              · intro i
                by_cases hci : s.rpcCounter = i <;>
                  simp [pendCount_expand, List.count_cons, hci] <;> omega
              · rfl
              · exact Or.inl rfl
              · simp [newSendCount, loadTokens]
            rw [hunfold]
            exact hspec
          · have hunfold : handleCommand ctx s (.userPrompt p) =
                ({ s with
                    rpcCounter := s.rpcCounter + 1, sends := s.sends + 1,
                    queuedPrompts := p :: s.queuedPrompts, closed := true },
                 [Output.sendFailed "session/prompt"]) := by
              simp [handleCommand, next_rpc_id, hsid, horacle]
            have hspec : StepSpec s
                { s with
                    rpcCounter := s.rpcCounter + 1, sends := s.sends + 1,
                    queuedPrompts := p :: s.queuedPrompts, closed := true }
                [Output.sendFailed "session/prompt"] := by
              apply stepSpec_of_noalloc _ _ _ hg ?_ ?_ ?_ ?_ ?_
              · intro i
                exact le_of_eq (by simp [pendCount_expand])
              · exact le_of_lt (lt_add_one _)
              · rfl
              · rfl
              · exact le_refl _
            rw [hunfold]
            exact hspec
  | cancelPrompt =>
      cases hsid : s.sessionId with
      | none =>
          have hunfold : handleCommand ctx s .cancelPrompt = (s, []) := by
            simp [handleCommand, hsid]
          rw [hunfold]
          exact stepSpec_of_noalloc s s [] hg (fun i => le_refl _) (le_refl _)
            rfl rfl (le_refl _)
      | some sid =>
          by_cases horacle : ctx.oracle s.sends = true
          · have hunfold : handleCommand ctx s .cancelPrompt =
                ({ s with rpcCounter := s.rpcCounter + 1, sends := s.sends + 1 },
                 [Output.sendReq s.rpcCounter "session/cancel"
                   (Json.obj [("sessionId", .str sid)])]) := by
              simp [handleCommand, next_rpc_id, hsid, horacle]
            have hspec : StepSpec s
                { s with rpcCounter := s.rpcCounter + 1, sends := s.sends + 1 }
                [Output.sendReq s.rpcCounter "session/cancel"
                  (Json.obj [("sessionId", .str sid)])] := by
              apply stepSpec_of_alloc _ _ _ hg ?_ ?_ ?_ ?_
              · intro i
                by_cases hci : s.rpcCounter = i <;>
                  simp [pendCount_expand, hci] <;> omega
              · rfl
              · exact Or.inl rfl
              · simp [newSendCount, loadTokens]
            rw [hunfold]
            exact hspec
          · have hunfold : handleCommand ctx s .cancelPrompt =
                ({ s with rpcCounter := s.rpcCounter + 1, sends := s.sends + 1 },
                 [Output.sendFailed "session/cancel"]) := by
              simp [handleCommand, next_rpc_id, hsid, horacle]
            have hspec : StepSpec s
                { s with rpcCounter := s.rpcCounter + 1, sends := s.sends + 1 }
                [Output.sendFailed "session/cancel"] := by
              apply stepSpec_of_noalloc _ _ _ hg ?_ ?_ ?_ ?_ ?_
              · intro i
                exact le_of_eq (by simp [pendCount_expand])
              · exact le_of_lt (lt_add_one _)
              · rfl
              · rfl
              · exact le_refl _
            rw [hunfold]
            exact hspec
  | setModel m =>
      cases hsid : s.sessionId with
      | none =>
          have hunfold : handleCommand ctx s (.setModel m) =
              (s, [Output.resolveModelErr "Session not ready"]) := by
            simp [handleCommand, hsid]
          rw [hunfold]
          exact stepSpec_of_noalloc s s
            [Output.resolveModelErr "Session not ready"] hg
            (fun i => le_refl _) (le_refl _) rfl rfl (le_refl _)
      | some sid =>
          by_cases horacle : ctx.oracle s.sends = true
          · have hunfold : handleCommand ctx s (.setModel m) =
                ({ s with
                    rpcCounter := s.rpcCounter + 1, sends := s.sends + 1,
                    pendingSetModel := (s.rpcCounter, m) :: s.pendingSetModel },
                 [Output.sendReq s.rpcCounter "session/set_model"
                   (Json.obj [("sessionId", .str sid), ("modelId", .str m)])]) := by
              simp [handleCommand, next_rpc_id, hsid, horacle]
            have hspec : StepSpec s
                { s with
                    rpcCounter := s.rpcCounter + 1, sends := s.sends + 1,
                    pendingSetModel := (s.rpcCounter, m) :: s.pendingSetModel }
                [Output.sendReq s.rpcCounter "session/set_model"
                  (Json.obj [("sessionId", .str sid), ("modelId", .str m)])] := by
              apply stepSpec_of_alloc _ _ _ hg ?_ ?_ ?_ ?_
              · intro i
                by_cases hci : s.rpcCounter = i <;>
                  simp [pendCount_expand, List.count_cons, hci] <;> omega
              · rfl
              · exact Or.inl rfl
              · simp [newSendCount, loadTokens]
            rw [hunfold]
            exact hspec
          · have hunfold : handleCommand ctx s (.setModel m) =
                ({ s with
                    rpcCounter := s.rpcCounter + 1, sends := s.sends + 1,
                    closed := true },
                 [Output.sendFailed "session/set_model",
                  Output.resolveModelErr "Failed to send session/set_model"]) := by
              simp [handleCommand, next_rpc_id, hsid, horacle]
            have hspec : StepSpec s
                { s with
                    rpcCounter := s.rpcCounter + 1, sends := s.sends + 1,
                    closed := true }
                [Output.sendFailed "session/set_model",
                 Output.resolveModelErr "Failed to send session/set_model"] := by
              apply stepSpec_of_noalloc _ _ _ hg ?_ ?_ ?_ ?_ ?_
              · intro i
                exact le_of_eq (by simp [pendCount_expand])
              · exact le_of_lt (lt_add_one _)
              · rfl
              · rfl
              · exact le_refl _
            rw [hunfold]
            exact hspec

theorem handleResponse_spec (ctx : Ctx) (s : ListenerState) (msg : Json)
    (hg : Good s) :
    StepSpec s (handleResponse ctx s msg).state (handleResponse ctx s msg).outs := by
  cases hid : parse_rpc_id msg with
  | none =>
      have hunfold : handleResponse ctx s msg =
          ⟨s, [Output.log "Unknown message"], false⟩ := by
        simp [handleResponse, hid]
      rw [hunfold]
      exact stepSpec_of_noalloc s s [Output.log "Unknown message"] hg
        (fun i => le_refl _) (le_refl _) rfl rfl (le_refl _)
  | some rid =>
      by_cases hinit : s.initId = some rid
      · cases herr : msg.getField "error" with
        | some err =>
            have hunfold : handleResponse ctx s msg =
                ⟨{ s with initId := none },
                 [Output.emitAgentError
                   ("ACP initialize failed: " ++ err.render)], true⟩ := by
              simp [handleResponse, hid, hinit, herr]
            have hspec : StepSpec s { s with initId := none }
                [Output.emitAgentError ("ACP initialize failed: " ++ err.render)] := by
              apply stepSpec_of_noalloc _ _ _ hg ?_ ?_ ?_ ?_ ?_
              · intro i
                by_cases hri : rid = i <;>
                  simp [pendCount_expand, hinit, List.count_cons, hri] <;> omega
              · exact le_refl _
              · rfl
              · rfl
              · cases hl : s.loadId <;> simp [loadTokens, hinit, hl]
            rw [hunfold]
            exact hspec
        | none =>
            cases hsid2 : s.sessionId with
            | some existing =>
                by_cases horacle : ctx.oracle s.sends = true
                · have hunfold : handleResponse ctx s msg =
                      ⟨{ s with
                          rpcCounter := s.rpcCounter + 1, sends := s.sends + 1,
                          initId := none, loadId := some s.rpcCounter },
                       [Output.sendReq s.rpcCounter "session/load"
                         (build_session_load_params ctx.workspacePath existing)],
                       false⟩ := by
                    simp [handleResponse, hid, hinit, herr, hsid2,
                      next_rpc_id, horacle]
                  have hspec : StepSpec s
                      { s with
                          rpcCounter := s.rpcCounter + 1, sends := s.sends + 1,
                          initId := none, loadId := some s.rpcCounter }
                      [Output.sendReq s.rpcCounter "session/load"
                        (build_session_load_params ctx.workspacePath existing)] := by
                    apply stepSpec_of_alloc _ _ _ hg ?_ ?_ ?_ ?_
                    · intro i
                      by_cases hri : rid = i <;> by_cases hci : s.rpcCounter = i <;>
                        simp [pendCount_expand, hinit, List.count_cons, hri, hci] <;>
                        omega
                    · rfl
                    · exact Or.inl rfl
                    · cases hl : s.loadId <;>
                        simp [newSendCount, loadTokens, hinit, hl]
                  rw [hunfold]
                  exact hspec
                · have hunfold : handleResponse ctx s msg =
                      ⟨{ s with
                          rpcCounter := s.rpcCounter + 1, sends := s.sends + 1,
                          initId := none, loadId := some s.rpcCounter },
                       [Output.sendFailed "session/load"], true⟩ := by
                    simp [handleResponse, hid, hinit, herr, hsid2,
                      next_rpc_id, horacle]
                  have hspec : StepSpec s
                      { s with
                          rpcCounter := s.rpcCounter + 1, sends := s.sends + 1,
                          initId := none, loadId := some s.rpcCounter }
                      [Output.sendFailed "session/load"] := by
                    apply stepSpec_of_alloc _ _ _ hg ?_ ?_ ?_ ?_
                    · intro i
                      by_cases hri : rid = i <;> by_cases hci : s.rpcCounter = i <;>
                        simp [pendCount_expand, hinit, List.count_cons, hri, hci] <;>
                        omega
                    · rfl
                    · exact Or.inr rfl
                    · cases hl : s.loadId <;>
                        simp [newSendCount, loadTokens, hinit, hl]
                  rw [hunfold]
                  exact hspec
            | none =>
                by_cases horacle : ctx.oracle s.sends = true
                · have hunfold : handleResponse ctx s msg =
                      ⟨{ s with
                          rpcCounter := s.rpcCounter + 1, sends := s.sends + 1,
                          initId := none, newId := some s.rpcCounter },
                       [Output.sendReq s.rpcCounter "session/new"
                         (build_session_new_params ctx.workspacePath)],
                       false⟩ := by
                    simp [handleResponse, hid, hinit, herr, hsid2,
                      next_rpc_id, horacle]
                  have hspec : StepSpec s
                      { s with
                          rpcCounter := s.rpcCounter + 1, sends := s.sends + 1,
                          initId := none, newId := some s.rpcCounter }
                      [Output.sendReq s.rpcCounter "session/new"
                        (build_session_new_params ctx.workspacePath)] := by
                    apply stepSpec_of_alloc _ _ _ hg ?_ ?_ ?_ ?_
                    · intro i
                      by_cases hri : rid = i <;> by_cases hci : s.rpcCounter = i <;>
                        simp [pendCount_expand, hinit, List.count_cons, hri, hci] <;>
                        omega
                    · rfl
                    · exact Or.inl rfl
                    · cases hl : s.loadId <;>
                        simp [newSendCount, loadTokens, hinit, hl]
                  rw [hunfold]
                  exact hspec
                · have hunfold : handleResponse ctx s msg =
                      ⟨{ s with
                          rpcCounter := s.rpcCounter + 1, sends := s.sends + 1,
                          initId := none, newId := some s.rpcCounter },
                       [Output.sendFailed "session/new"], true⟩ := by
                    simp [handleResponse, hid, hinit, herr, hsid2,
                      next_rpc_id, horacle]
                  have hspec : StepSpec s
                      { s with
                          rpcCounter := s.rpcCounter + 1, sends := s.sends + 1,
                          initId := none, newId := some s.rpcCounter }
                      [Output.sendFailed "session/new"] := by
                    apply stepSpec_of_alloc _ _ _ hg ?_ ?_ ?_ ?_
                    · intro i
                      by_cases hri : rid = i <;> by_cases hci : s.rpcCounter = i <;>
                        simp [pendCount_expand, hinit, List.count_cons, hri, hci] <;>
                        omega
                    · rfl
                    · exact Or.inr rfl
                    · cases hl : s.loadId <;>
                        simp [newSendCount, loadTokens, hinit, hl]
                  rw [hunfold]
                  exact hspec
      · by_cases hload : s.loadId = some rid
        · cases herr : msg.getField "error" with
          | some err =>
              by_cases horacle : ctx.oracle s.sends = true
              · have hunfold : handleResponse ctx s msg =
                    ⟨{ s with
                        rpcCounter := s.rpcCounter + 1, sends := s.sends + 1,
                        loadId := none, newId := some s.rpcCounter },
                     [Output.sendReq s.rpcCounter "session/new"
                       (build_session_new_params ctx.workspacePath)],
                     false⟩ := by
                  simp [handleResponse, hid, hinit, hload, herr,
                    next_rpc_id, horacle]
                have hspec : StepSpec s
                    { s with
                        rpcCounter := s.rpcCounter + 1, sends := s.sends + 1,
                        loadId := none, newId := some s.rpcCounter }
                    [Output.sendReq s.rpcCounter "session/new"
                      (build_session_new_params ctx.workspacePath)] := by
                  apply stepSpec_of_alloc _ _ _ hg ?_ ?_ ?_ ?_
                  · intro i
                    by_cases hri : rid = i <;> by_cases hci : s.rpcCounter = i <;>
                      simp [pendCount_expand, hload, List.count_cons, hri, hci] <;>
                      omega
                  · rfl
                  · exact Or.inl rfl
                  · cases hi : s.initId <;>
                      simp [newSendCount, loadTokens, hload, hi]
                rw [hunfold]
                exact hspec
              · have hunfold : handleResponse ctx s msg =
                    ⟨{ s with
                        rpcCounter := s.rpcCounter + 1, sends := s.sends + 1,
                        loadId := none, newId := some s.rpcCounter },
                     [Output.sendFailed "session/new"], true⟩ := by
                  simp [handleResponse, hid, hinit, hload, herr,
                    next_rpc_id, horacle]
                have hspec : StepSpec s
                    { s with
                        rpcCounter := s.rpcCounter + 1, sends := s.sends + 1,
                        loadId := none, newId := some s.rpcCounter }
                    [Output.sendFailed "session/new"] := by
                  apply stepSpec_of_alloc _ _ _ hg ?_ ?_ ?_ ?_
                  · intro i
                    by_cases hri : rid = i <;> by_cases hci : s.rpcCounter = i <;>
                      simp [pendCount_expand, hload, List.count_cons, hri, hci] <;>
                      omega
                  · rfl
                  · exact Or.inr rfl
                  · cases hi : s.initId <;>
                      simp [newSendCount, loadTokens, hload, hi]
                rw [hunfold]
                exact hspec
          | none =>
              cases hsid2 : s.sessionId with
              | some sid =>
                  cases hres : msg.getField "result" with
                  | some res =>
                      have hunfold : handleResponse ctx s msg =
                          ⟨(drainLoop ctx sid s.queuedPrompts
                             { s with loadId := none, queuedPrompts := [] }).1,
                           ([Output.emitRegistries res] ++
                             [Output.emitStream "✅ iFlow ACP 会话已恢复" "system"]) ++
                           (drainLoop ctx sid s.queuedPrompts
                             { s with loadId := none, queuedPrompts := [] }).2,
                           false⟩ := by
                        simp [handleResponse, hid, hinit, hload, herr, hsid2, hres]
                      have hpre : StepSpec s
                          { s with loadId := none, queuedPrompts := [] }
                          ([Output.emitRegistries res] ++
                            [Output.emitStream "✅ iFlow ACP 会话已恢复" "system"]) := by
                        apply stepSpec_of_noalloc _ _ _ hg ?_ ?_ ?_ ?_ ?_
                        · intro i
                          by_cases hri : rid = i <;>
                            simp [pendCount_expand, hload, List.count_cons, hri] <;>
                            omega
                        · exact le_refl _
                        · rfl
                        · rfl
                        · cases hi : s.initId <;> simp [loadTokens, hload, hi]
                      have hdr := drainLoop_spec ctx sid s.queuedPrompts
                        { s with loadId := none, queuedPrompts := [] } hpre.1
                      rw [hunfold]
                      exact stepSpec_trans _ _ _ _ _ hpre hdr
                  | none =>
                      have hunfold : handleResponse ctx s msg =
                          ⟨(drainLoop ctx sid s.queuedPrompts
                             { s with loadId := none, queuedPrompts := [] }).1,
                           ([] ++
                             [Output.emitStream "✅ iFlow ACP 会话已恢复" "system"]) ++
                           (drainLoop ctx sid s.queuedPrompts
                             { s with loadId := none, queuedPrompts := [] }).2,
                           false⟩ := by
                        simp [handleResponse, hid, hinit, hload, herr, hsid2, hres]
                      have hpre : StepSpec s
                          { s with loadId := none, queuedPrompts := [] }
                          ([] ++
                            [Output.emitStream "✅ iFlow ACP 会话已恢复" "system"]) := by
                        apply stepSpec_of_noalloc _ _ _ hg ?_ ?_ ?_ ?_ ?_
                        · intro i
                          by_cases hri : rid = i <;>
                            simp [pendCount_expand, hload, List.count_cons, hri] <;>
                            omega
                        · exact le_refl _
                        · rfl
                        · rfl
                        · cases hi : s.initId <;> simp [loadTokens, hload, hi]
                      have hdr := drainLoop_spec ctx sid s.queuedPrompts
                        { s with loadId := none, queuedPrompts := [] } hpre.1
                      rw [hunfold]
                      exact stepSpec_trans _ _ _ _ _ hpre hdr
              | none =>
                  cases hres : msg.getField "result" with
                  | some res =>
                      have hunfold : handleResponse ctx s msg =
                          ⟨{ s with loadId := none },
                           [Output.emitRegistries res,
                            Output.emitStream "✅ iFlow ACP 会话已恢复" "system"],
                           false⟩ := by
                        simp [handleResponse, hid, hinit, hload, herr, hsid2, hres]
                      have hspec : StepSpec s { s with loadId := none }
                          [Output.emitRegistries res,
                           Output.emitStream "✅ iFlow ACP 会话已恢复" "system"] := by
                        apply stepSpec_of_noalloc _ _ _ hg ?_ ?_ ?_ ?_ ?_
                        · intro i
                          by_cases hri : rid = i <;>
                            simp [pendCount_expand, hload, List.count_cons, hri] <;>
                            omega
                        · exact le_refl _
                        · rfl
                        · rfl
                        · cases hi : s.initId <;> simp [loadTokens, hload, hi]
                      rw [hunfold]
                      exact hspec
                  | none =>
                      have hunfold : handleResponse ctx s msg =
                          ⟨{ s with loadId := none },
                           [Output.emitStream "✅ iFlow ACP 会话已恢复" "system"],
                           false⟩ := by
                        simp [handleResponse, hid, hinit, hload, herr, hsid2, hres]
                      have hspec : StepSpec s { s with loadId := none }
                          [Output.emitStream "✅ iFlow ACP 会话已恢复" "system"] := by
                        apply stepSpec_of_noalloc _ _ _ hg ?_ ?_ ?_ ?_ ?_
                        · intro i
                          by_cases hri : rid = i <;>
                            simp [pendCount_expand, hload, List.count_cons, hri] <;>
                            omega
                        · exact le_refl _
                        · rfl
                        · rfl
                        · cases hi : s.initId <;> simp [loadTokens, hload, hi]
                      rw [hunfold]
                      exact hspec
        · by_cases hnew : s.newId = some rid
          · cases herr : msg.getField "error" with
            | some err =>
                have hunfold : handleResponse ctx s msg =
                    ⟨{ s with newId := none },
                     [Output.emitAgentError
                       ("session/new failed: " ++ err.render)], true⟩ := by
                  simp [handleResponse, hid, hinit, hload, hnew, herr]
                have hspec : StepSpec s { s with newId := none }
                    [Output.emitAgentError ("session/new failed: " ++ err.render)] := by
                  apply stepSpec_of_noalloc _ _ _ hg ?_ ?_ ?_ ?_ ?_
                  · intro i
                    by_cases hri : rid = i <;>
                      simp [pendCount_expand, hnew, List.count_cons, hri] <;> omega
                  · exact le_refl _
                  · rfl
                  · rfl
                  · exact le_refl _
                rw [hunfold]
                exact hspec
            | none =>
                cases hnewSid : ((msg.getField "result").bind
                    (fun r => r.getField "sessionId") >>= Json.asStr) with
                | none =>
                    have hunfold : handleResponse ctx s msg =
                        ⟨{ s with
                            newId := none, sessionId := none,
                            cachedSessionId := none },
                         [Output.emitAgentError
                           "session/new succeeded but no sessionId returned"],
                         true⟩ := by
                      simp [handleResponse, hid, hinit, hload, hnew, herr, hnewSid]
                    have hspec : StepSpec s
                        { s with
                            newId := none, sessionId := none,
                            cachedSessionId := none }
                        [Output.emitAgentError
                          "session/new succeeded but no sessionId returned"] := by
                      apply stepSpec_of_noalloc _ _ _ hg ?_ ?_ ?_ ?_ ?_
                      · intro i
                        by_cases hri : rid = i <;>
                          simp [pendCount_expand, hnew, List.count_cons, hri] <;> omega
                      · exact le_refl _
                      · rfl
                      · rfl
                      · exact le_refl _
                    rw [hunfold]
                    exact hspec
                | some sid =>
                    cases hres : msg.getField "result" with
                    | some res =>
                        have hunfold : handleResponse ctx s msg =
                            ⟨(drainLoop ctx sid s.queuedPrompts
                               { s with
                                   newId := none, sessionId := some sid,
                                   cachedSessionId := some sid,
                                   queuedPrompts := [] }).1,
                             [Output.emitRegistries res] ++
                             (drainLoop ctx sid s.queuedPrompts
                               { s with
                                   newId := none, sessionId := some sid,
                                   cachedSessionId := some sid,
                                   queuedPrompts := [] }).2,
                             false⟩ := by
                          have hnewSid2 : (res.getField "sessionId").bind
                              Json.asStr = some sid := by
                            rw [hres] at hnewSid
                            simpa using hnewSid
                          simp [handleResponse, hid, hinit, hload, hnew, herr,
                            hres, hnewSid2]
                        have hpre : StepSpec s
                            { s with
                                newId := none, sessionId := some sid,
                                cachedSessionId := some sid,
                                queuedPrompts := [] }
                            [Output.emitRegistries res] := by
                          apply stepSpec_of_noalloc _ _ _ hg ?_ ?_ ?_ ?_ ?_
                          · intro i
                            by_cases hri : rid = i <;>
                              simp [pendCount_expand, hnew, List.count_cons, hri] <;>
                              omega
                          · exact le_refl _
                          · rfl
                          · rfl
                          · exact le_refl _
                        have hdr := drainLoop_spec ctx sid s.queuedPrompts
                          { s with
                              newId := none, sessionId := some sid,
                              cachedSessionId := some sid,
                              queuedPrompts := [] } hpre.1
                        rw [hunfold]
                        exact stepSpec_trans _ _ _ _ _ hpre hdr
                    | none =>
                        have habsurd : ((msg.getField "result").bind
                            (fun r => r.getField "sessionId") >>= Json.asStr) = none := by
                          rw [hres]
                          rfl
                        rw [habsurd] at hnewSid
                        cases hnewSid
          · by_cases hprompt : rid ∈ s.pendingPromptIds
            · cases herr : msg.getField "error" with
              | some err =>
                  have hunfold : handleResponse ctx s msg =
                      ⟨{ s with
                          pendingPromptIds := s.pendingPromptIds.erase rid },
                       [Output.emitAgentError
                         ("session/prompt failed: " ++ err.render)], false⟩ := by
                    simp [handleResponse, hid, hinit, hload, hnew, hprompt, herr]
                  have hspec : StepSpec s
                      { s with pendingPromptIds := s.pendingPromptIds.erase rid }
                      [Output.emitAgentError
                        ("session/prompt failed: " ++ err.render)] := by
                    apply stepSpec_of_noalloc _ _ _ hg ?_ ?_ ?_ ?_ ?_
                    · intro i
                      have hsub := (List.erase_sublist rid s.pendingPromptIds).count_le i
                      simp only [pendCount_expand]
                      omega
                    · exact le_refl _
                    · rfl
                    · rfl
                    · exact le_refl _
                  rw [hunfold]
                  exact hspec
              | none =>
                  have hunfold : handleResponse ctx s msg =
                      ⟨{ s with
                          pendingPromptIds := s.pendingPromptIds.erase rid },
                       emit_task_finish ((((msg.getField "result").bind
                         (fun r => r.getField "stopReason") >>=
                           Json.asStr)).getD "completed"), false⟩ := by
                    simp [handleResponse, hid, hinit, hload, hnew, hprompt, herr]
                  have hspec : StepSpec s
                      { s with pendingPromptIds := s.pendingPromptIds.erase rid }
                      (emit_task_finish ((((msg.getField "result").bind
                        (fun r => r.getField "stopReason") >>=
                          Json.asStr)).getD "completed")) := by
                    apply stepSpec_of_noalloc _ _ _ hg ?_ ?_ ?_ ?_ ?_
                    · intro i
                      have hsub := (List.erase_sublist rid s.pendingPromptIds).count_le i
                      simp only [pendCount_expand]
                      omega
                    · exact le_refl _
                    · exact sentIds_emit_task_finish _
                    · exact newSendCount_emit_task_finish _
                    · exact le_refl _
                  rw [hunfold]
                  exact hspec
            · cases hlook : s.pendingSetModel.lookup rid with
              | some model =>
                  cases herr : msg.getField "error" with
                  | some err =>
                      have hunfold : handleResponse ctx s msg =
                          ⟨{ s with pendingSetModel :=
                              s.pendingSetModel.filter (fun p => p.1 != rid) },
                           [Output.resolveModelErr
                             ("session/set_model failed: " ++ err.render)],
                           false⟩ := by
                        simp [handleResponse, hid, hinit, hload, hnew, hprompt,
                          hlook, herr]
                      have hspec : StepSpec s
                          { s with pendingSetModel :=
                              s.pendingSetModel.filter (fun p => p.1 != rid) }
                          [Output.resolveModelErr
                            ("session/set_model failed: " ++ err.render)] := by
                        apply stepSpec_of_noalloc _ _ _ hg ?_ ?_ ?_ ?_ ?_
                        · intro i
                          have hsub := (((List.filter_sublist
                            (p := fun p => p.1 != rid)
                            s.pendingSetModel)).map Prod.fst).count_le i
                          simp only [pendCount_expand]
                          omega
                        · exact le_refl _
                        · rfl
                        · rfl
                        · exact le_refl _
                      rw [hunfold]
                      exact hspec
                  | none =>
                      have hunfold : handleResponse ctx s msg =
                          ⟨{ s with pendingSetModel :=
                              s.pendingSetModel.filter (fun p => p.1 != rid) },
                           [Output.emitModelRegistry []
                             (((((msg.getField "result").bind
                               (fun r => r.getField "currentModelId") >>=
                                 Json.asStr).map String.trim).filter
                                   (fun v => v != "")).getD model),
                            Output.resolveModelOk
                             (((((msg.getField "result").bind
                               (fun r => r.getField "currentModelId") >>=
                                 Json.asStr).map String.trim).filter
                                   (fun v => v != "")).getD model)],
                           false⟩ := by
                        simp [handleResponse, hid, hinit, hload, hnew, hprompt,
                          hlook, herr]
                      have hspec : StepSpec s
                          { s with pendingSetModel :=
                              s.pendingSetModel.filter (fun p => p.1 != rid) }
                          [Output.emitModelRegistry []
                            (((((msg.getField "result").bind
                              (fun r => r.getField "currentModelId") >>=
                                Json.asStr).map String.trim).filter
                                  (fun v => v != "")).getD model),
                           Output.resolveModelOk
                            (((((msg.getField "result").bind
                              (fun r => r.getField "currentModelId") >>=
                                Json.asStr).map String.trim).filter
                                  (fun v => v != "")).getD model)] := by
                        apply stepSpec_of_noalloc _ _ _ hg ?_ ?_ ?_ ?_ ?_
                        · intro i
                          have hsub := (((List.filter_sublist
                            (p := fun p => p.1 != rid)
                            s.pendingSetModel)).map Prod.fst).count_le i
                          simp only [pendCount_expand]
                          omega
                        · exact le_refl _
                        · rfl
                        · rfl
                        · exact le_refl _
                      rw [hunfold]
                      exact hspec
              | none =>
                  have hunfold : handleResponse ctx s msg =
                      ⟨s, [Output.log "Unknown message"], false⟩ := by
                    simp [handleResponse, hid, hinit, hload, hnew, hprompt, hlook]
                  rw [hunfold]
                  exact stepSpec_of_noalloc s s [Output.log "Unknown message"] hg
                    (fun i => le_refl _) (le_refl _) rfl rfl (le_refl _)

theorem handleLineFull_spec (ctx : Ctx) (fs : Fs) (s : ListenerState)
    (msg : Json) (hg : Good s) :
    StepSpec s (handleLineFull ctx fs s msg).state
      (handleLineFull ctx fs s msg).outs := by
  cases hm : msg.getField "method" >>= Json.asStr with
  | none =>
      have hunfold : handleLineFull ctx fs s msg = handleResponse ctx s msg := by
        simp [handleLineFull, hm]
      rw [hunfold]
      exact handleResponse_spec ctx s msg hg
  | some method =>
      by_cases hsu : method = "session/update"
      · cases hupd : (msg.getField "params").bind
            (fun p => p.getField "update") with
        | some update =>
            have hunfold : handleLineFull ctx fs s msg =
                ⟨s, ((handle_session_update update).map Output.router)
                  ++ [Output.commandRegistryFromUpdate update], false⟩ := by
              simp [handleLineFull, hm, hsu, hupd]
            have hspec : StepSpec s s
                (((handle_session_update update).map Output.router)
                  ++ [Output.commandRegistryFromUpdate update]) := by
              apply stepSpec_of_noalloc _ _ _ hg (fun i => le_refl _)
                (le_refl _) ?_ ?_ (le_refl _)
              · rw [sentIds_append, sentIds_map_router]
                rfl
              · rw [newSendCount_append, newSendCount_map_router]
                rfl
            rw [hunfold]
            exact hspec
        | none =>
            have hunfold : handleLineFull ctx fs s msg = ⟨s, [], false⟩ := by
              simp [handleLineFull, hm, hsu, hupd]
            rw [hunfold]
            exact stepSpec_of_noalloc s s [] hg (fun i => le_refl _)
              (le_refl _) rfl rfl (le_refl _)
      · cases hrid : parse_rpc_id msg with
        | some requestId =>
            by_cases horacle : ctx.oracle s.sends = true
            · have hunfold : handleLineFull ctx fs s msg =
                  ⟨{ s with sends := s.sends + 1 },
                   (((handle_server_request fs method
                       (msg.getField "params")).2).map Output.fsOp) ++
                     [Output.serverReply requestId
                       (handle_server_request fs method
                         (msg.getField "params")).1],
                   false⟩ := by
                simp [handleLineFull, hm, hsu, hrid, horacle]
              have hspec : StepSpec s { s with sends := s.sends + 1 }
                  ((((handle_server_request fs method
                      (msg.getField "params")).2).map Output.fsOp) ++
                    [Output.serverReply requestId
                      (handle_server_request fs method
                        (msg.getField "params")).1]) := by
                apply stepSpec_of_noalloc _ _ _ hg ?_ ?_ ?_ ?_ ?_
                · intro i
                  exact le_of_eq (by simp [pendCount_expand])
                · exact le_refl _
                · rw [sentIds_append, sentIds_map_fsOp]
                  rfl
                · rw [newSendCount_append, newSendCount_map_fsOp]
                  rfl
                · exact le_refl _
              rw [hunfold]
              exact hspec
            · have hunfold : handleLineFull ctx fs s msg =
                  ⟨{ s with sends := s.sends + 1 },
                   (((handle_server_request fs method
                       (msg.getField "params")).2).map Output.fsOp) ++
                     [Output.serverReplyFailed requestId],
                   false⟩ := by
                simp [handleLineFull, hm, hsu, hrid, horacle]
              have hspec : StepSpec s { s with sends := s.sends + 1 }
                  ((((handle_server_request fs method
                      (msg.getField "params")).2).map Output.fsOp) ++
                    [Output.serverReplyFailed requestId]) := by
                apply stepSpec_of_noalloc _ _ _ hg ?_ ?_ ?_ ?_ ?_
                · intro i
                  exact le_of_eq (by simp [pendCount_expand])
                · exact le_refl _
                · rw [sentIds_append, sentIds_map_fsOp]
                  rfl
                · rw [newSendCount_append, newSendCount_map_fsOp]
                  rfl
                · exact le_refl _
              rw [hunfold]
              exact hspec
        | none =>
            have hunfold : handleLineFull ctx fs s msg =
                ⟨s, [Output.log ("Notification method ignored: " ++ method)],
                 false⟩ := by
              simp [handleLineFull, hm, hsu, hrid]
            rw [hunfold]
            exact stepSpec_of_noalloc s s
              [Output.log ("Notification method ignored: " ++ method)] hg
              (fun i => le_refl _) (le_refl _) rfl rfl (le_refl _)

theorem handleFrame_spec (ctx : Ctx) (fs : Fs) :
    ∀ (lines : List Json) (s : ListenerState), Good s →
    StepSpec s (handleFrame ctx fs s lines).1 (handleFrame ctx fs s lines).2 := by
  intro lines
  induction lines with
  | nil =>
      intro s hg
      exact stepSpec_of_noalloc s s [] hg (fun i => le_refl _) (le_refl _)
        rfl rfl (le_refl _)
  | cons msg rest ih =>
      intro s hg
      have h1 := handleLineFull_spec ctx fs s msg hg
      by_cases hbrk : (handleLineFull ctx fs s msg).brk = true
      · have hunfold : handleFrame ctx fs s (msg :: rest) =
            ((handleLineFull ctx fs s msg).state,
             (handleLineFull ctx fs s msg).outs) := by
          simp [handleFrame, hbrk]
        rw [hunfold]
        exact h1
      · have hunfold : handleFrame ctx fs s (msg :: rest) =
            ((handleFrame ctx fs (handleLineFull ctx fs s msg).state rest).1,
             (handleLineFull ctx fs s msg).outs ++
               (handleFrame ctx fs (handleLineFull ctx fs s msg).state rest).2) := by
          simp [handleFrame, hbrk]
        have h2 := ih (handleLineFull ctx fs s msg).state h1.1
        rw [hunfold]
        exact stepSpec_trans _ _ _ _ _ h1 h2

theorem step_spec (ctx : Ctx) (fs : Fs) (s : ListenerState)
    (e : ListenerEvent) (hg : Good s) :
    StepSpec s (step ctx fs s e).1 (step ctx fs s e).2 := by
  cases e with
  | cmd c => exact handleCommand_spec ctx s c hg
  | frame lines => exact handleFrame_spec ctx fs lines s hg

theorem run_spec (ctx : Ctx) (fs : Fs) :
    ∀ (evs : List ListenerEvent) (s : ListenerState), Good s →
    StepSpec s (run ctx fs s evs).1 (run ctx fs s evs).2 := by
  intro evs
  induction evs with
  | nil =>
      intro s hg
      exact stepSpec_of_noalloc s s [] hg (fun i => le_refl _) (le_refl _)
        rfl rfl (le_refl _)
  | cons e rest ih =>
      intro s hg
      by_cases hclosed : s.closed = true
      · have hunfold : run ctx fs s (e :: rest) = (s, []) := by
          simp [run, hclosed]
        rw [hunfold]
        exact stepSpec_of_noalloc s s [] hg (fun i => le_refl _) (le_refl _)
          rfl rfl (le_refl _)
      · have hunfold : run ctx fs s (e :: rest) =
            ((run ctx fs (step ctx fs s e).1 rest).1,
             (step ctx fs s e).2 ++ (run ctx fs (step ctx fs s e).1 rest).2) := by
          simp [run, hclosed]
        have h1 := step_spec ctx fs s e hg
        have h2 := ih (step ctx fs s e).1 h1.1
        rw [hunfold]
        exact stepSpec_trans _ _ _ _ _ h1 h2

theorem connectionStart_spec (ctx : Ctx) (cached : Option String)
    (queue : List String) :
    Good (connectionStart ctx cached queue).1 ∧
    loadTokens (connectionStart ctx cached queue).1 ≤ 1 ∧
    newSendCount (connectionStart ctx cached queue).2 = 0 ∧
    List.Pairwise (· < ·) (sentIds (connectionStart ctx cached queue).2) ∧
    (∀ i ∈ sentIds (connectionStart ctx cached queue).2,
      i < (connectionStart ctx cached queue).1.rpcCounter) := by
  by_cases horacle : ctx.oracle 0 = true
  · have hunfold : connectionStart ctx cached queue =
        ({ rpcCounter := 2, sends := 1, initId := some 1, loadId := none,
           newId := none, sessionId := cached, cachedSessionId := cached,
           queuedPrompts := queue, pendingPromptIds := [],
           pendingSetModel := [], closed := false },
         [Output.sendReq 1 "initialize" build_initialize_params]) := by
      simp [connectionStart, next_rpc_id, horacle]
    rw [hunfold]
    refine ⟨⟨fun i => ?_, fun i hpos => ?_⟩, ?_, ?_, ?_, ?_⟩
    · by_cases h1 : (1 : Int) = i <;>
        simp [pendCount_expand, List.count_cons, h1]
    · by_cases h1 : (1 : Int) = i
      · rw [← h1]
        norm_num
      · exfalso
        simp [pendCount_expand, List.count_cons, h1] at hpos
    · simp [loadTokens]
    · simp [newSendCount]
    · simp [sentIds]
    · intro i hi
      simp [sentIds] at hi
      rw [hi]
      norm_num
  · have hunfold : connectionStart ctx cached queue =
        ({ rpcCounter := 2, sends := 1, initId := none, loadId := none,
           newId := none, sessionId := cached, cachedSessionId := cached,
           queuedPrompts := queue, pendingPromptIds := [],
           pendingSetModel := [], closed := true },
         [Output.sendFailed "initialize"]) := by
      simp [connectionStart, next_rpc_id, horacle]
    rw [hunfold]
    refine ⟨⟨fun i => ?_, fun i hpos => ?_⟩, ?_, ?_, ?_, ?_⟩
    · simp [pendCount_expand]
    · exfalso
      simp [pendCount_expand] at hpos
    · simp [loadTokens]
    · simp [newSendCount]
    · simp [sentIds]
    · intro i hi
      simp [sentIds] at hi

/-! ## C2: request ids strictly increasing, pending ids disjoint -/

/-- C2: within one connection, outbound request ids drawn from the
per-connection counter are strictly increasing over the whole lifetime
(initial `initialize` send included), and in every reachable state no two
outstanding pending requests (pending initialize/load/new id, pending
prompt-id set, pending set-model map) hold the same id. -/
theorem rpc_ids_unique_increasing (ctx : Ctx) (fs : Fs)
    (cached : Option String) (queue : List String)
    (events : List ListenerEvent) :
    List.Pairwise (· < ·)
      (sentIds ((connectionStart ctx cached queue).2 ++
        (run ctx fs (connectionStart ctx cached queue).1 events).2)) ∧
    (pendingIds (run ctx fs (connectionStart ctx cached queue).1 events).1).Nodup := by
  obtain ⟨hg0, htok0, hnew0, hp0, hb0⟩ := connectionStart_spec ctx cached queue
  obtain ⟨hg1, hc1, hp1, hb1, ht1⟩ :=
    run_spec ctx fs events (connectionStart ctx cached queue).1 hg0
  constructor
  · rw [sentIds_append, List.pairwise_append]
    refine ⟨hp0, hp1, ?_⟩
    intro a ha b hb
    exact lt_of_lt_of_le (hb0 a ha) ((hb1 b hb).1)
  · exact good_nodup _ hg1

/-! ## C3: session/load error fallback -/

/-- C3 (amended): a response to the pending `session/load` request that
carries an `error` field triggers exactly one fallback `session/new`
request, and over a whole connection attempt at most one `session/new` is
ever sent (so never two); however the failed cached session id is not
discarded at that point — it remains both the active and the cached
session id until the `session/new` response replaces it. -/
theorem load_fallback_single_new (ctx : Ctx) (fs : Fs)
    (cached : Option String) (queue : List String)
    (events : List ListenerEvent)
    (s : ListenerState) (msg err : Json) (rid : Int)
    (hnomethod : (msg.getField "method" >>= Json.asStr) = none)
    (hid : parse_rpc_id msg = some rid)
    (hinit : s.initId ≠ some rid)
    (hload : s.loadId = some rid)
    (herr : msg.getField "error" = some err)
    (horacle : ctx.oracle s.sends = true) :
    newSendCount ((connectionStart ctx cached queue).2 ++
      (run ctx fs (connectionStart ctx cached queue).1 events).2) ≤ 1 ∧
    (handleLine ctx fs s msg).2 =
      [Output.sendReq s.rpcCounter "session/new"
        (build_session_new_params ctx.workspacePath)] ∧
    newSendCount (handleLine ctx fs s msg).2 = 1 ∧
    (handleLine ctx fs s msg).1.loadId = none ∧
    (handleLine ctx fs s msg).1.sessionId = s.sessionId ∧
    (handleLine ctx fs s msg).1.cachedSessionId = s.cachedSessionId := by
  have hstep : handleLine ctx fs s msg =
      ({ s with
          rpcCounter := s.rpcCounter + 1, sends := s.sends + 1,
          loadId := none, newId := some s.rpcCounter },
       [Output.sendReq s.rpcCounter "session/new"
         (build_session_new_params ctx.workspacePath)]) := by
    simp [handleLine, handleLineFull, hnomethod, handleResponse, hid, hinit,
      hload, herr, next_rpc_id, horacle]
  obtain ⟨hg0, htok0, hnew0, hp0, hb0⟩ := connectionStart_spec ctx cached queue
  obtain ⟨hg1, hc1, hp1, hb1, ht1⟩ :=
    run_spec ctx fs events (connectionStart ctx cached queue).1 hg0
  refine ⟨?_, by rw [hstep], by rw [hstep]; simp [newSendCount],
    by rw [hstep], by rw [hstep], by rw [hstep]⟩
  rw [newSendCount_append, hnew0]
  omega

/-- Counterexample to C3 as stated: a reachable trace (cached session id
"stale", successful initialize, then a `session/load` error response) after
which the failed cached id is still both the active and the cached session
id, and a subsequent user prompt is sent against that stale id. -/
theorem load_fallback_discard_cex :
    (run ctxDemo fsDemo (connectionStart ctxDemo (some "stale") []).1
      [ListenerEvent.frame [Json.obj [("id", .num 1), ("result", Json.obj [])]],
       ListenerEvent.frame [Json.obj [("id", .num 2),
         ("error", Json.obj [("code", .num (-32000))])]],
       ListenerEvent.cmd (ListenerCommand.userPrompt "hi")]).1.sessionId =
      some "stale" ∧
    (run ctxDemo fsDemo (connectionStart ctxDemo (some "stale") []).1
      [ListenerEvent.frame [Json.obj [("id", .num 1), ("result", Json.obj [])]],
       ListenerEvent.frame [Json.obj [("id", .num 2),
         ("error", Json.obj [("code", .num (-32000))])]],
       ListenerEvent.cmd (ListenerCommand.userPrompt "hi")]).1.cachedSessionId =
      some "stale" ∧
    (run ctxDemo fsDemo (connectionStart ctxDemo (some "stale") []).1
      [ListenerEvent.frame [Json.obj [("id", .num 1), ("result", Json.obj [])]],
       ListenerEvent.frame [Json.obj [("id", .num 2),
         ("error", Json.obj [("code", .num (-32000))])]],
       ListenerEvent.cmd (ListenerCommand.userPrompt "hi")]).2 =
      [Output.sendReq 2 "session/load"
        (build_session_load_params "/ws" "stale"),
       Output.sendReq 3 "session/new" (build_session_new_params "/ws"),
       Output.sendReq 4 "session/prompt" (build_prompt_params "stale" "hi")] :=
  ⟨rfl, rfl, rfl⟩

/-- Witness for the amended C3 at a concrete load-error response. -/
theorem load_fallback_single_new_witness :
    (let s : ListenerState :=
      { rpcCounter := 3, sends := 2, initId := none, loadId := some 2,
        newId := none, sessionId := some "stale",
        cachedSessionId := some "stale", queuedPrompts := [],
        pendingPromptIds := [], pendingSetModel := [], closed := false }
     let msg := Json.obj [("id", .num 2), ("error", .str "not found")]
     parse_rpc_id msg = some 2 ∧ s.loadId = some 2 ∧
     (newSendCount ((connectionStart ctxDemo (some "stale") []).2 ++
        (run ctxDemo fsDemo (connectionStart ctxDemo (some "stale") []).1 []).2) ≤ 1 ∧
      (handleLine ctxDemo fsDemo s msg).2 =
        [Output.sendReq s.rpcCounter "session/new"
          (build_session_new_params ctxDemo.workspacePath)] ∧
      newSendCount (handleLine ctxDemo fsDemo s msg).2 = 1 ∧
      (handleLine ctxDemo fsDemo s msg).1.loadId = none ∧
      (handleLine ctxDemo fsDemo s msg).1.sessionId = s.sessionId ∧
      (handleLine ctxDemo fsDemo s msg).1.cachedSessionId = s.cachedSessionId)) :=
  ⟨rfl, rfl,
   load_fallback_single_new ctxDemo fsDemo (some "stale") [] []
     { rpcCounter := 3, sends := 2, initId := none, loadId := some 2,
       newId := none, sessionId := some "stale",
       cachedSessionId := some "stale", queuedPrompts := [],
       pendingPromptIds := [], pendingSetModel := [], closed := false }
     (Json.obj [("id", .num 2), ("error", .str "not found")])
     (.str "not found") 2
     rfl rfl (by simp) rfl rfl rfl⟩

end FlowHub
